import Mathlib

/-!
Shallow embedding of the QTI USB HAL service (`src/hal/Usb.cpp`) and proofs
about its role-switch coordination protocol, sysfs status aggregation, and
uevent handlers.

Modelling conventions:
* The filesystem (sysfs/configfs) is a read-only oracle `FS` fixed for the
  duration of one call: `hasNode` models `access(path, F_OK) == 0`, `read`
  models `android::base::ReadFileToString` (`none` = failure; on failure the
  C++ helper clears the output string), `writeOk` models the success of
  `android::base::WriteStringToFile` (the write attempt itself is recorded as
  an `Action`), and `dir` models `opendir`/`readdir` listings.
* Every function additionally returns the ordered list of observable
  `Action`s it performs (lock operations, flag writes, file I/O attempts,
  condition-variable signalling, callback notifications).  File writes are
  recorded whether or not they succeed, since the source attempts them
  unconditionally.
* The timed condition wait of `Usb::switchMode` is driven by an oracle list
  of `WakeEvent`s: each `pthread_cond_timedwait` call consumes one event,
  which is either `timedout` (the wait used up the full `PORT_TYPE_TIMEOUT`,
  written `T` below) or `woke up d` (the wait returned after `d` time units
  with `mPartnerUp = up` at that moment).  An exhausted oracle behaves like a
  final timeout.  `T` is kept as a parameter because the value of
  `PORT_TYPE_TIMEOUT` lives in the (absent) header `Usb.h`; no claim depends
  on its numeric value.
* `unordered_map` iteration order is unspecified in C++; the embedding uses
  insertion order, which is irrelevant to every property proved here.
-/

set_option linter.unusedVariables false

namespace UsbHal

/-- Role axis selector (`PortRoleType` from the V1_0 USB HAL types:
`DATA_ROLE = 0`, `POWER_ROLE = 1`, `MODE = 2`).  The source's `default:`
switch branches are unreachable for these three in-range values. -/
inductive PortRoleType where
  | DATA_ROLE
  | POWER_ROLE
  | MODE
deriving DecidableEq

/-- A requested role: the axis plus the raw `uint32_t` role value. -/
structure PortRole where
  type : PortRoleType
  role : Nat
deriving DecidableEq

/-- Result codes (`Status` from the V1_0 USB HAL types). -/
inductive Status where
  | SUCCESS
  | ERROR
  | INVALID_ARGUMENT
  | UNRECOGNIZED_ROLE
deriving DecidableEq

/-- Numeric value of `PortPowerRole::SOURCE`. -/
def PortPowerRole_SOURCE : Nat := 1
/-- Numeric value of `PortPowerRole::SINK`. -/
def PortPowerRole_SINK : Nat := 2
/-- Numeric value of `PortDataRole::HOST`. -/
def PortDataRole_HOST : Nat := 1
/-- Numeric value of `PortDataRole::DEVICE`. -/
def PortDataRole_DEVICE : Nat := 2
/-- Numeric value of `PortMode_1_1::UFP`. -/
def PortMode_1_1_UFP : Nat := 1
/-- Numeric value of `PortMode_1_1::DFP`. -/
def PortMode_1_1_DFP : Nat := 2
/-- Numeric value of `PortMode_1_1::AUDIO_ACCESSORY` (`1 << 2`). -/
def PortMode_1_1_AUDIO_ACCESSORY : Nat := 4
/-- Numeric value of `PortMode_1_1::DEBUG_ACCESSORY` (`1 << 3`). -/
def PortMode_1_1_DEBUG_ACCESSORY : Nat := 8
/-- Numeric value of `V1_0::PortMode::DFP`. -/
def V1_0_PortMode_DFP : Nat := 2
/-- Numeric value of `PortMode_1_1::DRP | PortMode_1_1::AUDIO_ACCESSORY` (3 | 4). -/
def SupportedModes_DRP_or_AUDIO : Nat := 7
/-- Numeric value of `ContaminantProtectionMode::FORCE_SINK |
ContaminantProtectionMode::FORCE_DISABLE`: `FORCE_SINK = 1 << 0` and
`FORCE_DISABLE = 1 << 2` in the V1_2 HAL types, so the disjunction is
`1 | 4 = 5`. -/
def ContaminantProtection_FORCE_SINK_or_FORCE_DISABLE : Nat := 5
/-- Numeric value of `ContaminantProtectionStatus::FORCE_SINK`. -/
def ContaminantProtectionStatus_FORCE_SINK : Nat := 1
/-- Numeric value of `ContaminantProtectionMode::NONE` / `ContaminantProtectionStatus::NONE`. -/
def ContaminantProtection_NONE : Nat := 0
/-- Numeric value of `ContaminantDetectionStatus::NOT_SUPPORTED` (the
default-initialized value of the field in a freshly resized `hidl_vec`). -/
def ContaminantDetectionStatus_NOT_SUPPORTED : Nat := 0
/-- Numeric value of `ContaminantDetectionStatus::NOT_DETECTED`. -/
def ContaminantDetectionStatus_NOT_DETECTED : Nat := 2
/-- Numeric value of `ContaminantDetectionStatus::DETECTED`. -/
def ContaminantDetectionStatus_DETECTED : Nat := 3

/-- The three pthread mutexes of the service: `mRoleSwitchLock` (serializes
switch attempts), `mPartnerLock` (guards `mPartnerUp` and `mPartnerCV`), and
`mLock` (guards the callback registration `mCallback_1_0`). -/
inductive LockId where
  | roleSwitch
  | partner
  | cb
deriving DecidableEq

/-- Observable atomic actions performed by the embedded functions, in
program order. -/
inductive Action where
  | lock (l : LockId)
  | unlock (l : LockId)
  | setPartner (b : Bool)
  | signalCV
  | timedwait
  | faccess (path : String)
  | fread (path : String)
  | fwrite (path : String) (value : String)
  | notifyRole (portName : String) (newRole : PortRole) (st : Status)
  | notifyStatus (st : Status)
deriving DecidableEq

/-- Filesystem oracle, fixed for the duration of one call (see module
docstring). -/
structure FS where
  hasNode : String → Bool
  read : String → Option String
  writeOk : String → Bool
  dir : String → Option (List String)

/-- The mutable fields of the `Usb` service object used by the modelled
code paths.  The constructor initializes `mPartnerUp = false` and
`mContaminantPresence = false`. -/
structure Usb where
  mPartnerUp : Bool
  mContaminantPresence : Bool
  mContaminantStatusPath : String
  mPowerOpMode : String
  mMaxPower : String
  mAttributes : String
deriving DecidableEq

/-- Source lines 71-95: build the sysfs control-node path for a port and
role axis.  Rejects `".."` and any `'/'` in the port name by returning the
empty (invalid) path before touching the filesystem.  For the `MODE` axis it
probes `port_type` with `access` (recorded as an `Action.faccess`) and falls
back to `data_role` when absent. -/
def appendRoleNodeHelper (fs : FS) (portName : String) (type : PortRoleType) :
    String × List Action :=
  if portName = ".." ∨ portName.toList.contains '/' then ("", [])
  else
    let node := "/sys/class/typec/" ++ portName
    match type with
    | PortRoleType.MODE =>
      let port_type := node ++ "/port_type"
      if fs.hasNode port_type then (port_type, [Action.faccess port_type])
      else (node ++ "/data_role", [Action.faccess port_type])
    | PortRoleType.DATA_ROLE => (node ++ "/data_role", [])
    | PortRoleType.POWER_ROLE => (node ++ "/power_role", [])

/-- Source lines 97-112: map a requested role to the string written to
sysfs.  Note the `MODE` axis maps `UFP` to `"sink"` and `DFP` to
`"source"`; every unrecognized combination falls through to `"none"`. -/
def convertRoletoString (role : PortRole) : String :=
  if role.type = PortRoleType.POWER_ROLE then
    if role.role = PortPowerRole_SOURCE then "source"
    else if role.role = PortPowerRole_SINK then "sink"
    else "none"
  else if role.type = PortRoleType.DATA_ROLE then
    if role.role = PortDataRole_HOST then "host"
    else if role.role = PortDataRole_DEVICE then "device"
    else "none"
  else
    if role.role = PortMode_1_1_UFP then "sink"
    else if role.role = PortMode_1_1_DFP then "source"
    else "none"

/-- Source lines 114-123: extract the bracket-annotated active token from a
kernel role string (e.g. `"[source] sink"` becomes `"source"`).  When either
bracket is missing the string is left unchanged.  When `']'` occurs before
`'['` the C++ `size_t` length `last - first - 1` wraps around and `substr`
clamps it to the remainder of the string; the `else` branch reproduces
that. -/
def extractRole (roleName : String) : String :=
  let cs := roleName.toList
  match cs.findIdx? (· = '['), cs.findIdx? (· = ']') with
  | some first, some last =>
    let len := if first + 1 ≤ last then last - (first + 1) else cs.length
    String.mk ((cs.drop (first + 1)).take len)
  | _, _ => roleName

/-- Source lines 125-130: best-effort fallback that writes `"dual"` to the
Mode node of the port (failure is only logged). -/
def switchToDrp (fs : FS) (portName : String) : List Action :=
  let fn := appendRoleNodeHelper fs portName PortRoleType.MODE
  fn.2 ++ [Action.fwrite fn.1 "dual"]

/-- Whitespace as tested by `isspace` (the characters stripped by
`android::base::Trim`). -/
def isSpaceC (c : Char) : Bool :=
  c = ' ' || c = '\t' || c = '\n' || c = '\x0b' || c = '\x0c' || c = '\r'

/-- `android::base::Trim`: strip leading and trailing whitespace.  Spelled
out over the character list so that it reduces in the kernel. -/
def Trim (s : String) : String :=
  String.mk (((s.toList.dropWhile isSpaceC).reverse.dropWhile isSpaceC).reverse)

/-- Source lines 259-270: read and trim the connected partner's
`accessory_mode` file.  Returns the status, the trimmed accessory string,
and the actions performed. -/
def getAccessoryConnected (fs : FS) (portName : String) :
    Status × String × List Action :=
  let filename := "/sys/class/typec/" ++ portName ++ "-partner/accessory_mode"
  match fs.read filename with
  | none => (Status.ERROR, "", [Action.fread filename])
  | some accessory => (Status.SUCCESS, Trim accessory, [Action.fread filename])

/-- Source lines 305-335, the tail of `getCurrentRoleHelper`: resolve the
role node, read it, extract the bracketed token, and map it to a numeric
role.  `acc` carries the actions already performed by the caller.  The
`currentRole` out-parameter was initialized to the axis's `NONE` value (0),
which is returned unchanged on every failure path and for `"none"`. -/
def readRoleNode (fs : FS) (portName : String) (type : PortRoleType)
    (acc : List Action) : Status × Nat × List Action :=
  let fn := appendRoleNodeHelper fs portName type
  match fs.read fn.1 with
  | none => (Status.ERROR, 0, acc ++ fn.2 ++ [Action.fread fn.1])
  | some raw =>
    let roleName := extractRole raw
    let acts := acc ++ fn.2 ++ [Action.fread fn.1]
    if roleName = "source" then (Status.SUCCESS, PortPowerRole_SOURCE, acts)
    else if roleName = "sink" then (Status.SUCCESS, PortPowerRole_SINK, acts)
    else if roleName = "host" then
      if type = PortRoleType.DATA_ROLE then (Status.SUCCESS, PortDataRole_HOST, acts)
      else (Status.SUCCESS, PortMode_1_1_DFP, acts)
    else if roleName = "device" then
      if type = PortRoleType.DATA_ROLE then (Status.SUCCESS, PortDataRole_DEVICE, acts)
      else (Status.SUCCESS, PortMode_1_1_UFP, acts)
    else if roleName = "none" then (Status.SUCCESS, 0, acts)
    else (Status.UNRECOGNIZED_ROLE, 0, acts)

/-- Source lines 272-336: current role of one axis of one port.  The role
out-parameter defaults to the axis's `NONE` value (numerically 0 for all
three axes); a disconnected port returns `SUCCESS` immediately, before any
filesystem access.  For the `MODE` axis of a connected port the partner's
accessory mode is consulted first. -/
def getCurrentRoleHelper (fs : FS) (portName : String) (connected : Bool)
    (type : PortRoleType) : Status × Nat × List Action :=
  if connected = false then (Status.SUCCESS, 0, [])
  else if type = PortRoleType.MODE then
    let acc := getAccessoryConnected fs portName
    if acc.1 ≠ Status.SUCCESS then (Status.ERROR, 0, acc.2.2)
    else if acc.2.1 = "analog_audio" then
      (Status.SUCCESS, PortMode_1_1_AUDIO_ACCESSORY, acc.2.2)
    else if acc.2.1 = "debug" then
      (Status.SUCCESS, PortMode_1_1_DEBUG_ACCESSORY, acc.2.2)
    else readRoleNode fs portName type acc.2.2
  else readRoleNode fs portName type []

/-- Path of the Type-C class directory enumerated by
`getTypeCPortNamesHelper`. -/
def typecDirPath : String := "/sys/class/typec"

/-- Set the port to connected in the name map, inserting it (connected) if
absent — the semantics of `names[entry.substr(0, n)] = true` on an
`unordered_map`, with insertion order standing in for its unspecified
iteration order. -/
def upsertTrue : List (String × Bool) → String → List (String × Bool)
  | [], k => [(k, true)]
  | (k2, v) :: rest, k =>
    if k2 = k then (k2, true) :: rest else (k2, v) :: upsertTrue rest k

/-- Index of the first occurrence of `pat` in the remaining characters,
starting the count at `i` — the semantics of `std::string::find`. -/
def findSubAux (pat : List Char) : List Char → Nat → Option Nat
  | [], i => if pat.isPrefixOf ([] : List Char) then some i else none
  | c :: rest, i =>
    if pat.isPrefixOf (c :: rest) then some i else findSubAux pat rest (i + 1)

/-- First occurrence of `pat` in `cs`, or `none` (`std::string::find`). -/
def findSub (cs pat : List Char) : Option Nat := findSubAux pat cs 0

/-- Process one directory entry of `/sys/class/typec` (source lines
345-358): an entry containing `"-partner"` marks its base name (the prefix
before the first occurrence, `entry.substr(0, n)`) connected; any other
entry is inserted as a (so far) disconnected port if absent. -/
def addPortEntry (names : List (String × Bool)) (entry : String) :
    List (String × Bool) :=
  match findSub entry.toList "-partner".toList with
  | none =>
    if names.any (fun kv => kv.1 = entry) then names else names ++ [(entry, false)]
  | some n => upsertTrue names (String.mk (entry.toList.take n))

/-- Source lines 338-366: enumerate ports by listing `/sys/class/typec`
(entries are modelled as the `DT_LNK` entries the source filters for); an
unreadable directory yields the empty map. -/
def getTypeCPortNamesHelper (fs : FS) : List (String × Bool) :=
  match fs.dir typecDirPath with
  | none => []
  | some entries => entries.foldl addPortEntry []

/-- Source lines 368-379: a port's roles are switchable only if the partner
advertises USB Power Delivery support (first character of the file is
`'y'`; an unreadable file counts as unsupported). -/
def canSwitchRoleHelper (fs : FS) (portName : String) : Bool × List Action :=
  let filename :=
    "/sys/class/typec/" ++ portName ++ "-partner/supports_usb_power_delivery"
  match fs.read filename with
  | none => (false, [Action.fread filename])
  | some supportsPD =>
    (supportsPD.toList.headD 'n' = 'y', [Action.fread filename])

/-- One element of the status snapshot (the fields of
`V1_2::PortStatus` populated by `getPortStatusHelper`, flattened; enum
values are the numeric constants defined above). -/
structure PortStatusRec where
  portName : String
  currentPowerRole : Nat
  currentDataRole : Nat
  currentMode : Nat
  canChangeMode : Bool
  canChangeDataRole : Bool
  canChangePowerRole : Bool
  supportedModes : Nat
  supportedContaminantProtectionModes : Nat
  supportsEnableContaminantPresenceProtection : Bool
  supportsEnableContaminantPresenceDetection : Bool
  contaminantProtectionStatus : Nat
  contaminantDetectionStatus : Nat
deriving DecidableEq

/-- The loop body of `getPortStatusHelper` (source lines 392-473) over the
enumerated `(portName, connected)` pairs.  Any axis whose role cannot be
retrieved aborts the whole snapshot with `ERROR` (the source's `goto done`).
`canSwitchRoleHelper` is invoked separately for the data-role and
power-role capability, as in the source.  Contaminant fields are populated
only when `v10 = false`, and the moisture file is consulted only for
`"port0"` with a configured non-empty path.  Modelling note: on the
`goto done` path the C++ out-vector keeps its resized, partially populated
entries, while this embedding returns an empty record list together with
the error status; the record list of an errored snapshot is consumed only
by `handle_psy_uevent`'s best-effort DRP loop. -/
def portStatusLoop (fs : FS) (v10 : Bool) (cpath : String) :
    List (String × Bool) → Status × List PortStatusRec × List Action
  | [] => (Status.SUCCESS, [], [])
  | (portName, connected) :: rest =>
    let pr := getCurrentRoleHelper fs portName connected PortRoleType.POWER_ROLE
    if pr.1 ≠ Status.SUCCESS then (Status.ERROR, [], pr.2.2)
    else
      let dr := getCurrentRoleHelper fs portName connected PortRoleType.DATA_ROLE
      if dr.1 ≠ Status.SUCCESS then (Status.ERROR, [], pr.2.2 ++ dr.2.2)
      else
        let md := getCurrentRoleHelper fs portName connected PortRoleType.MODE
        if md.1 ≠ Status.SUCCESS then (Status.ERROR, [], pr.2.2 ++ dr.2.2 ++ md.2.2)
        else
          let cd := if connected then canSwitchRoleHelper fs portName else (false, [])
          let cp := if connected then canSwitchRoleHelper fs portName else (false, [])
          let base : PortStatusRec :=
            { portName := portName
              currentPowerRole := pr.2.1
              currentDataRole := dr.2.1
              currentMode := md.2.1
              canChangeMode := true
              canChangeDataRole := cd.1
              canChangePowerRole := cp.1
              supportedModes :=
                if v10 then V1_0_PortMode_DFP else SupportedModes_DRP_or_AUDIO
              supportedContaminantProtectionModes :=
                if v10 then 0 else ContaminantProtection_FORCE_SINK_or_FORCE_DISABLE
              supportsEnableContaminantPresenceProtection := false
              supportsEnableContaminantPresenceDetection := false
              contaminantProtectionStatus :=
                if v10 then 0 else ContaminantProtectionStatus_FORCE_SINK
              contaminantDetectionStatus := ContaminantDetectionStatus_NOT_SUPPORTED }
          let contam : PortStatusRec × List Action :=
            if v10 then (base, [])
            else if portName ≠ "port0" then (base, [])  -- moisture detection only on first port
            else if cpath ≠ "" then
              match fs.read cpath with
              | some contaminantPresence =>
                if contaminantPresence.toList.headD ' ' = '1' then
                  ({ base with contaminantDetectionStatus :=
                       ContaminantDetectionStatus_DETECTED }, [Action.fread cpath])
                else
                  ({ base with contaminantDetectionStatus :=
                       ContaminantDetectionStatus_NOT_DETECTED }, [Action.fread cpath])
              | none =>
                ({ base with
                     supportedContaminantProtectionModes := ContaminantProtection_NONE
                     contaminantProtectionStatus := ContaminantProtection_NONE },
                 [Action.fread cpath])
            else
              ({ base with
                   supportedContaminantProtectionModes := ContaminantProtection_NONE
                   contaminantProtectionStatus := ContaminantProtection_NONE }, [])
          let restOut := portStatusLoop fs v10 cpath rest
          (restOut.1, contam.1 :: restOut.2.1,
           pr.2.2 ++ dr.2.2 ++ md.2.2 ++ cd.2 ++ cp.2 ++ contam.2 ++ restOut.2.2)

/-- Source lines 385-478: build the full status snapshot.  An empty port
enumeration is an `ERROR`; otherwise the loop either completes with
`SUCCESS` or aborts with `ERROR` — it never propagates
`UNRECOGNIZED_ROLE`. -/
def getPortStatusHelper (fs : FS) (v10 : Bool) (cpath : String) :
    Status × List PortStatusRec × List Action :=
  let names := getTypeCPortNamesHelper fs
  if names.isEmpty then (Status.ERROR, [], [])
  else portStatusLoop fs v10 cpath names

/-- Source lines 480-525 (collapsed over the callback-version dispatch,
which always funnels into `getPortStatusHelper` and one notification): the
proactive status push.  It runs under `mLock` and notifies only when a
callback is registered. -/
def queryPortStatus (fs : FS) (usb : Usb) (cbPresent v10 : Bool) : List Action :=
  let st := getPortStatusHelper fs v10 usb.mContaminantStatusPath
  [Action.lock LockId.cb] ++
    (if cbPresent then st.2.2 ++ [Action.notifyStatus st.1] else []) ++
    [Action.unlock LockId.cb]

/-- One return of `pthread_cond_timedwait` inside `Usb::switchMode`:
either the wait ran to its (per-iteration!) deadline and returned
`ETIMEDOUT`, or it was woken after `elapsed` time units with
`mPartnerUp = partnerUp` at that moment.  The source checks `ETIMEDOUT`
first, so a timeout ends the wait regardless of the flag. -/
inductive WakeEvent where
  | timedout
  | woke (partnerUp : Bool) (elapsed : Nat)
deriving DecidableEq

/-- The wait loop of `Usb::switchMode` (source lines 152-167).  Each
iteration recomputes the absolute deadline as `now + T` (`clock_gettime`
under the `wait_again:` label) and waits once; `ETIMEDOUT` ends the loop as
a timeout, a wake with the flag set ends it as success, and a spurious wake
(`goto wait_again`) repeats — against a fresh deadline.  Returns
(confirmed, total elapsed time, number of wait iterations).  An exhausted
oracle is the final timeout. -/
def waitLoop (T : Nat) : List WakeEvent → Bool × Nat × Nat
  | [] => (false, T, 1)
  | WakeEvent.timedout :: _ => (false, T, 1)
  | WakeEvent.woke up d :: rest =>
    if up then (true, d, 1)
    else
      let r := waitLoop T rest
      (r.1, d + r.2.1, r.2.2 + 1)

/-- Trace-level statement that the partner confirmation arrives (a wake
with the flag set) strictly before any deadline expiry. -/
def confirmedBeforeDeadline : List WakeEvent → Bool
  | [] => false
  | WakeEvent.timedout :: _ => false
  | WakeEvent.woke up _ :: rest => up || confirmedBeforeDeadline rest

/-- Number of spurious wakes (flag unset) the wait loop consumes before it
ends. -/
def spuriousCount : List WakeEvent → Nat
  | [] => 0
  | WakeEvent.timedout :: _ => 0
  | WakeEvent.woke up _ :: rest => if up then 0 else spuriousCount rest + 1

/-- A wake oracle is valid for timeout `T` when every non-timeout wake
returns strictly before its iteration's deadline. -/
def wakesValid (T : Nat) (wakes : List WakeEvent) : Bool :=
  wakes.all fun e =>
    match e with
    | WakeEvent.timedout => true
    | WakeEvent.woke _ d => d < T

/-- Result of `Usb::switchMode`: the returned `roleSwitch` flag, the action
trace, and the total time spent inside the timed wait. -/
structure SwitchModeOut where
  roleSwitch : Bool
  trace : List Action
  waited : Nat
deriving DecidableEq

/-- Source lines 132-178, `Usb::switchMode`: resolve the node (an invalid
name returns `false` immediately, with no I/O and no fallback); otherwise
take `mPartnerLock`, clear `mPartnerUp`, write the role string, and — if
the write succeeded — run the timed wait loop.  The lock is released before
the `switchToDrp` fallback, which runs exactly when `roleSwitch` is still
`false`. -/
def switchMode (fs : FS) (T : Nat) (portName : String) (newRole : PortRole)
    (wakes : List WakeEvent) : SwitchModeOut :=
  let fn := appendRoleNodeHelper fs portName newRole.type
  if fn.1 = "" then { roleSwitch := false, trace := fn.2, waited := 0 }
  else
    let pre := fn.2 ++
      [Action.lock LockId.partner, Action.setPartner false,
       Action.fwrite fn.1 (convertRoletoString newRole)]
    if fs.writeOk fn.1 then
      let w := waitLoop T wakes
      let waits := List.replicate w.2.2 Action.timedwait
      if w.1 then
        { roleSwitch := true
          trace := pre ++ waits ++ [Action.unlock LockId.partner]
          waited := w.2.1 }
      else
        { roleSwitch := false
          trace := pre ++ waits ++ [Action.unlock LockId.partner] ++
            switchToDrp fs portName
          waited := w.2.1 }
    else
      { roleSwitch := false
        trace := pre ++ [Action.unlock LockId.partner] ++ switchToDrp fs portName
        waited := 0 }

/-- Result of `Usb::switchRole`: `none` when the invalid-path early return
was taken (no switch attempted, nobody notified), otherwise the final
`roleSwitch` value; plus the action trace and the time spent in the Mode
wait (0 for the non-Mode axes, which never wait). -/
structure SwitchRoleOut where
  result : Option Bool
  trace : List Action
  waited : Nat
deriving DecidableEq

/-- Source lines 207-257, `Usb::switchRole`: after path validation, the
whole attempt runs under `mRoleSwitchLock`.  The `MODE` axis delegates to
`switchMode` (which re-resolves the node, as in the source); the other axes
write the role string and, if the write succeeded, read the node back,
extract the bracketed token, and compare it with the requested string — no
wait, no partner signal, no fallback.  The outcome is then reported under
`mLock` when a callback is registered. -/
def switchRole (fs : FS) (T : Nat) (portName : String) (newRole : PortRole)
    (wakes : List WakeEvent) (cbPresent : Bool) : SwitchRoleOut :=
  let fn := appendRoleNodeHelper fs portName newRole.type
  if fn.1 = "" then { result := none, trace := fn.2, waited := 0 }
  else
    let inner : Bool × List Action × Nat :=
      if newRole.type = PortRoleType.MODE then
        let o := switchMode fs T portName newRole wakes
        (o.roleSwitch, o.trace, o.waited)
      else
        if fs.writeOk fn.1 then
          match fs.read fn.1 with
          | some written =>
            (extractRole written = convertRoletoString newRole,
             [Action.fwrite fn.1 (convertRoletoString newRole), Action.fread fn.1], 0)
          | none =>
            (false,
             [Action.fwrite fn.1 (convertRoletoString newRole), Action.fread fn.1], 0)
        else
          (false, [Action.fwrite fn.1 (convertRoletoString newRole)], 0)
    { result := some inner.1
      trace := fn.2 ++ [Action.lock LockId.roleSwitch] ++ inner.2.1 ++
        [Action.lock LockId.cb] ++
        (if cbPresent then
          [Action.notifyRole portName newRole
            (if inner.1 then Status.SUCCESS else Status.ERROR)]
         else []) ++
        [Action.unlock LockId.cb, Action.unlock LockId.roleSwitch]
      waited := inner.2.2 }

/-- The `add@...-partner` pattern test of `handle_typec_uevent` (source
line 575): `strncmp(msg, "add@", 4)` and a comparison of the last eight
characters against `"-partner"`. -/
def partnerAddMatch (msg : String) : Bool :=
  "add@".toList.isPrefixOf msg.toList && "-partner".toList.isSuffixOf msg.toList

/-- Path of the power-operation-mode file polled by the Type-C handler. -/
def pomPath : String := "/sys/class/typec/port0/power_operation_mode"

/-- Gadget configfs path for `MaxPower`. -/
def maxPowerPath : String := "/config/usb_gadget/g1/configs/b.1/MaxPower"

/-- Gadget configfs path for `bmAttributes`. -/
def bmAttributesPath : String := "/config/usb_gadget/g1/configs/b.1/bmAttributes"

/-- Source lines 583-602, the power-operation-mode section of
`handle_typec_uevent`: re-read `power_operation_mode`; on entering
`usb_power_delivery` save the gadget's `MaxPower`/`bmAttributes` and force
them to `0`/`0xc0`; on leaving it restore the saved values
(`ReadFileToString` clears its output on failure, hence `getD ""`). -/
def typec_power_section (fs : FS) (usb1 : Usb) : Usb × List Action :=
  match fs.read pomPath with
  | none => (usb1, [Action.fread pomPath])
  | some raw =>
    let pom := Trim raw
    if usb1.mPowerOpMode = pom then
      ({ usb1 with mPowerOpMode := pom }, [Action.fread pomPath])
    else if pom = "usb_power_delivery" then
      ({ usb1 with
           mPowerOpMode := pom
           mMaxPower := (fs.read maxPowerPath).getD ""
           mAttributes := (fs.read bmAttributesPath).getD "" },
       [Action.fread pomPath, Action.fread maxPowerPath,
        Action.fread bmAttributesPath, Action.fwrite maxPowerPath "0",
        Action.fwrite bmAttributesPath "0xc0"])
    else if usb1.mMaxPower ≠ "" then
      ({ usb1 with mPowerOpMode := pom, mMaxPower := "" },
       [Action.fread pomPath, Action.fwrite maxPowerPath usb1.mMaxPower,
        Action.fwrite bmAttributesPath usb1.mAttributes])
    else ({ usb1 with mPowerOpMode := pom }, [Action.fread pomPath])

/-- Source lines 570-605, `handle_typec_uevent` (Monitor thread): a
`add@...-partner` message sets `mPartnerUp` under `mPartnerLock` and
signals `mPartnerCV`; then the power-operation-mode section runs; finally
a fresh status snapshot is pushed via `queryPortStatus`. -/
def handle_typec_uevent (fs : FS) (usb : Usb) (msg : String)
    (cbPresent v10 : Bool) : Usb × List Action :=
  let partner := partnerAddMatch msg
  let usb1 := if partner then { usb with mPartnerUp := true } else usb
  let tr1 : List Action :=
    if partner then
      [Action.lock LockId.partner, Action.setPartner true, Action.signalCV,
       Action.unlock LockId.partner]
    else []
  let step2 := typec_power_section fs usb1
  (step2.1, tr1 ++ step2.2 ++ queryPortStatus fs step2.1 cbPresent v10)

/-- The `POWER_SUPPLY_NAME` scan of `handle_psy_uevent` (source lines
622-633) over the null-separated `key=value` fields: the handler proceeds
iff the first `POWER_SUPPLY_NAME=` field (if any) names the `"usb"`
supply — when no such field occurs the loop falls through and the handler
proceeds. -/
def psyNameCheck : List String → Bool
  | [] => true
  | f :: rest =>
    if "POWER_SUPPLY_NAME=".toList.isPrefixOf f.toList then
      String.mk (f.toList.drop 18) = "usb"
    else psyNameCheck rest

/-- Source lines 607-666, `handle_psy_uevent` (Monitor thread): bail out
unless a V1_2 callback is registered, the uevent names the `"usb"` supply,
and the configured moisture file is readable.  Push a status notification
(and record the new value) exactly when the fresh reading differs from
`mContaminantPresence`.  Afterwards, if `mRoleSwitchLock` could be acquired
without blocking (`trylockOk`), every port in the just-built snapshot whose
`-partner` directory is absent gets a best-effort DRP fallback write; when
nothing was notified the snapshot list is empty, so nothing is written.
Returns the new object state, whether a notification was pushed, and the
actions. -/
def handle_psy_uevent (fs : FS) (usb : Usb) (fields : List String)
    (callbackV12 : Bool) (trylockOk : Bool) : Usb × Bool × List Action :=
  if callbackV12 = false then (usb, false, [])
  else if psyNameCheck fields = false then (usb, false, [])
  else if usb.mContaminantStatusPath = "" then (usb, false, [])
  else
    match fs.read usb.mContaminantStatusPath with
    | none => (usb, false, [Action.fread usb.mContaminantStatusPath])
    | some contaminantPresence =>
      let moisture : Bool := contaminantPresence.toList.headD ' ' = '1'
      let changed : Usb × Bool × List PortStatusRec × List Action :=
        if usb.mContaminantPresence ≠ moisture then
          let st := getPortStatusHelper fs false usb.mContaminantStatusPath
          ({ usb with mContaminantPresence := moisture }, true, st.2.1,
           st.2.2 ++ [Action.notifyStatus st.1])
        else (usb, false, [], [])
      let drp : List Action :=
        if trylockOk then
          changed.2.2.1.foldr
            (fun r acc =>
              (match fs.dir ("/sys/class/typec/" ++ r.portName ++ "-partner") with
               | none => switchToDrp fs r.portName
               | some _ => []) ++ acc) []
        else []
      (changed.1, changed.2.1,
       [Action.fread usb.mContaminantStatusPath] ++ changed.2.2.2 ++ drp)

/-! ## Interleaving semantics for the lock discipline

Each thread runs a straight-line program of `Action`s (for the claims of
interest, an instance of `(switchRole ...).trace`).  The scheduler may
interleave threads arbitrarily, but a `lock` action is enabled only while
the mutex is free and an `unlock` only for the current owner — the
semantics of a (non-recursive) pthread mutex used correctly. -/

/-- A thread: the actions already executed, in order, and those still to
run. -/
structure Thread where
  done : List Action
  rest : List Action

/-- A configuration of the concurrent system: one thread per index (all but
finitely many are expected to be finished or empty, but nothing requires
it), plus the owner of each mutex. -/
structure Config where
  threads : Nat → Thread
  held : LockId → Option Nat

/-- Initial configuration: nothing executed, no mutex held. -/
def initConfig (progs : Nat → List Action) : Config :=
  { threads := fun i => { done := [], rest := progs i }, held := fun _ => none }

/-- Replace thread `i`. -/
def updThreads (ts : Nat → Thread) (i : Nat) (t : Thread) : Nat → Thread :=
  fun j => if j = i then t else ts j

/-- Update the owner of mutex `l`. -/
def updHeld (h : LockId → Option Nat) (l : LockId) (v : Option Nat) :
    LockId → Option Nat :=
  fun l2 => if l2 = l then v else h l2

/-- One scheduler step: some thread executes its next action.  Acquiring a
mutex requires it to be free; releasing requires ownership; every other
action is always enabled. -/
inductive Step : Config → Config → Prop where
  | lockS (c : Config) (i : Nat) (l : LockId) (rest : List Action) :
      (c.threads i).rest = Action.lock l :: rest →
      c.held l = none →
      Step c
        { threads := updThreads c.threads i
            { done := (c.threads i).done ++ [Action.lock l], rest := rest }
          held := updHeld c.held l (some i) }
  | unlockS (c : Config) (i : Nat) (l : LockId) (rest : List Action) :
      (c.threads i).rest = Action.unlock l :: rest →
      c.held l = some i →
      Step c
        { threads := updThreads c.threads i
            { done := (c.threads i).done ++ [Action.unlock l], rest := rest }
          held := updHeld c.held l none }
  | otherS (c : Config) (i : Nat) (a : Action) (rest : List Action) :
      (c.threads i).rest = a :: rest →
      (∀ l, a ≠ Action.lock l) →
      (∀ l, a ≠ Action.unlock l) →
      Step c
        { threads := updThreads c.threads i
            { done := (c.threads i).done ++ [a], rest := rest }
          held := c.held }

/-- Reachability from the initial configuration of a set of programs. -/
def Reachable (progs : Nat → List Action) (c : Config) : Prop :=
  Relation.ReflTransGen Step (initConfig progs) c

/-- Number of occurrences of action `x` in a trace. -/
def countA (x : Action) : List Action → Nat
  | [] => 0
  | a :: r => (if a = x then 1 else 0) + countA x r

/-- A thread is inside the switch-serialization critical section when it
has executed more acquisitions than releases of `mRoleSwitchLock`. -/
def insideSwitch (t : Thread) : Prop :=
  countA (Action.unlock LockId.roleSwitch) t.done <
    countA (Action.lock LockId.roleSwitch) t.done

/-! ## Classification helpers and basic lemmas -/

/-- Is this action a filesystem access (probe, read, or write attempt)? -/
def isFileAct : Action → Bool
  | Action.faccess _ => true
  | Action.fread _ => true
  | Action.fwrite _ _ => true
  | _ => false

/-- Is this action a write of the string `"dual"` (the DRP fallback)? -/
def isDualWrite : Action → Bool
  | Action.fwrite _ v => v == "dual"
  | _ => false

/-- Number of DRP-fallback writes in a trace. -/
def countDual (tr : List Action) : Nat := (tr.filter isDualWrite).length

theorem countDual_append (a b : List Action) :
    countDual (a ++ b) = countDual a + countDual b := by
  simp [countDual, List.filter_append]

theorem countDual_replicate_timedwait (n : Nat) :
    countDual (List.replicate n Action.timedwait) = 0 := by
  induction n with
  | zero => rfl
  | succ k ih => simp [List.replicate_succ, countDual, isDualWrite]

theorem appendRoleNodeHelper_acts_file (fs : FS) (p : String) (t : PortRoleType) :
    ∀ a ∈ (appendRoleNodeHelper fs p t).2, isFileAct a = true := by
  intro a ha
  unfold appendRoleNodeHelper at ha
  split at ha
  · simp at ha
  · cases t <;> simp only at ha
    · simp at ha
    · simp at ha
    · split at ha <;> simp at ha <;> simp [ha, isFileAct]

theorem countDual_appendRoleNodeHelper (fs : FS) (p : String) (t : PortRoleType) :
    countDual (appendRoleNodeHelper fs p t).2 = 0 := by
  unfold appendRoleNodeHelper
  split
  · rfl
  · cases t <;> simp only
    · rfl
    · rfl
    · split <;> simp [countDual, isDualWrite]

theorem countDual_switchToDrp (fs : FS) (p : String) :
    countDual (switchToDrp fs p) = 1 := by
  unfold switchToDrp
  rw [countDual_append, countDual_appendRoleNodeHelper]
  simp [countDual, isDualWrite]

theorem convertRoletoString_ne_dual (role : PortRole) :
    convertRoletoString role ≠ "dual" := by
  unfold convertRoletoString
  split_ifs <;> decide

theorem appendRoleNodeHelper_data_acts (fs : FS) (p : String) :
    (appendRoleNodeHelper fs p PortRoleType.DATA_ROLE).2 = [] := by
  unfold appendRoleNodeHelper
  split <;> rfl

theorem waitLoop_fst (T : Nat) (wakes : List WakeEvent) :
    (waitLoop T wakes).1 = confirmedBeforeDeadline wakes := by
  induction wakes with
  | nil => rfl
  | cons e rest ih =>
    cases e with
    | timedout => rfl
    | woke up d => cases up <;> simp [waitLoop, confirmedBeforeDeadline, ih]

theorem waitLoop_timeout_bounds (T : Nat) (wakes : List WakeEvent)
    (hv : wakesValid T wakes = true)
    (hc : confirmedBeforeDeadline wakes = false) :
    T ≤ (waitLoop T wakes).2.1 ∧
      (waitLoop T wakes).2.1 ≤ (spuriousCount wakes + 1) * T := by
  induction wakes with
  | nil => simp [waitLoop, spuriousCount]
  | cons e rest ih =>
    cases e with
    | timedout => simp [waitLoop, spuriousCount]
    | woke up d =>
      cases up with
      | true => simp [confirmedBeforeDeadline] at hc
      | false =>
        simp only [confirmedBeforeDeadline, Bool.false_or] at hc
        simp only [wakesValid, List.all_cons, Bool.and_eq_true] at hv
        have hd : d < T := by simpa using hv.1
        have ih2 := ih (by simpa [wakesValid] using hv.2) hc
        simp only [waitLoop, spuriousCount, Bool.false_eq_true, if_false]
        constructor
        · omega
        · have hk : (spuriousCount rest + 1 + 1) * T
              = (spuriousCount rest + 1) * T + T := by ring
          rw [hk]
          omega

/-! ## Concrete fixtures used by counterexamples and witnesses -/

/-- Filesystem in which every write succeeds and nothing is readable: the
environment of a Mode switch whose confirmation only ever comes from the
wake oracle. -/
def fsMode : FS :=
  { hasNode := fun _ => false
    read := fun _ => none
    writeOk := fun _ => true
    dir := fun _ => none }

/-- Filesystem in which `port1`'s `data_role` node accepts writes and reads
back `"[device]"`. -/
def fsData : FS :=
  { hasNode := fun _ => false
    read := fun p =>
      if p = "/sys/class/typec/port1/data_role" then some "[device]" else none
    writeOk := fun _ => true
    dir := fun _ => none }

/-- Filesystem with one connected port `port0` whose `power_role` node
reads back the out-of-vocabulary value `"banana"`. -/
def fsSnap : FS :=
  { hasNode := fun _ => false
    read := fun p =>
      if p = "/sys/class/typec/port0/power_role" then some "banana" else none
    writeOk := fun _ => true
    dir := fun p =>
      if p = "/sys/class/typec" then some ["port0", "port0-partner"] else none }

/-- Filesystem whose configured moisture file `/p` reads `"1"`. -/
def fsPsy : FS :=
  { hasNode := fun _ => false
    read := fun p => if p = "/p" then some "1" else none
    writeOk := fun _ => true
    dir := fun _ => none }

/-- A freshly constructed service object with moisture path `/p`. -/
def usbPsy : Usb :=
  { mPartnerUp := false
    mContaminantPresence := false
    mContaminantStatusPath := "/p"
    mPowerOpMode := ""
    mMaxPower := ""
    mAttributes := "" }

/-- A freshly constructed service object with no moisture path. -/
def usbSnap : Usb :=
  { mPartnerUp := false
    mContaminantPresence := false
    mContaminantStatusPath := ""
    mPowerOpMode := ""
    mMaxPower := ""
    mAttributes := "" }

/-! ## Claims -/

/-- Claim C7 (confirmed): for every port passed down as disconnected,
`getCurrentRoleHelper` reports `SUCCESS` with the role left at the axis's
`NONE` value (0 — `PortPowerRole::NONE`, `PortDataRole::NONE` and
`PortMode_1_1::NONE` alike) and performs no filesystem access at all: the
connected check precedes every role and accessory read, so the returned
action list is empty for all three axes. -/
theorem C7_disconnected_roles_none (fs : FS) (portName : String)
    (type : PortRoleType) :
    getCurrentRoleHelper fs portName false type = (Status.SUCCESS, 0, []) := rfl

/-- Claim C6 (confirmed): for every port name equal to `".."` or containing
`'/'`, and every role axis, `appendRoleNodeHelper` returns the empty
(invalid) path with no filesystem access, `switchMode` returns `false`
immediately with an empty action trace and no wait, and `switchRole` takes
its early return — no I/O, no lock activity, no notification. -/
theorem C6_invalid_portname (fs : FS) (portName : String) (type : PortRoleType)
    (T : Nat) (newRole : PortRole) (wakes : List WakeEvent) (cbPresent : Bool)
    (h : portName = ".." ∨ portName.toList.contains '/' = true) :
    appendRoleNodeHelper fs portName type = ("", []) ∧
    switchMode fs T portName newRole wakes =
      { roleSwitch := false, trace := [], waited := 0 } ∧
    switchRole fs T portName newRole wakes cbPresent =
      { result := none, trace := [], waited := 0 } := by
  have h1 : ∀ t, appendRoleNodeHelper fs portName t = ("", []) := by
    intro t
    unfold appendRoleNodeHelper
    rw [if_pos]
    rcases h with h | h
    · exact Or.inl h
    · exact Or.inr h
  refine ⟨h1 type, ?_, ?_⟩
  · unfold switchMode
    rw [h1]
    rfl
  · unfold switchRole
    rw [h1]
    rfl

/-- Claim C6 witness: the theorem at the concrete port name `".."`. -/
theorem C6_invalid_portname_witness :
    appendRoleNodeHelper fsMode ".." PortRoleType.POWER_ROLE = ("", []) ∧
    switchMode fsMode 1 ".." ⟨PortRoleType.MODE, 1⟩ [] =
      { roleSwitch := false, trace := [], waited := 0 } ∧
    switchRole fsMode 1 ".." ⟨PortRoleType.MODE, 1⟩ [] true =
      { result := none, trace := [], waited := 0 } :=
  C6_invalid_portname fsMode ".." PortRoleType.POWER_ROLE 1
    ⟨PortRoleType.MODE, 1⟩ [] true (Or.inl rfl)

/-- The six `(axis, role)` pairs `convertRoletoString` maps to a non-default
string, exactly as enumerated by the claim: `POWER_ROLE`/source|sink,
`DATA_ROLE`/host|device, `MODE`/UFP|DFP. -/
def recognizedCombo (role : PortRole) : Bool :=
  match role.type with
  | PortRoleType.POWER_ROLE =>
    role.role == PortPowerRole_SOURCE || role.role == PortPowerRole_SINK
  | PortRoleType.DATA_ROLE =>
    role.role == PortDataRole_HOST || role.role == PortDataRole_DEVICE
  | PortRoleType.MODE =>
    role.role == PortMode_1_1_UFP || role.role == PortMode_1_1_DFP

/-- Claim C10 (confirmed): `convertRoletoString` is total and defaults to
`"none"` for every `(type, role)` pair outside the six recognized
combinations, and consequently a switch request with such a role is not
rejected: `switchRole` (hence also `switchMode`, which it calls for the
Mode axis) attempts to write the literal string `"none"` to the resolved
sysfs node. -/
theorem C10_unrecognized_role_writes_none (role : PortRole)
    (h : recognizedCombo role = false) :
    convertRoletoString role = "none" ∧
    ∀ (fs : FS) (T : Nat) (portName : String) (wakes : List WakeEvent)
      (cbPresent : Bool),
      (appendRoleNodeHelper fs portName role.type).1 ≠ "" →
      Action.fwrite (appendRoleNodeHelper fs portName role.type).1 "none"
        ∈ (switchRole fs T portName role wakes cbPresent).trace := by
  obtain ⟨t, r⟩ := role
  have h1 : convertRoletoString ⟨t, r⟩ = "none" := by
    cases t <;>
      simp only [recognizedCombo, Bool.or_eq_false_iff, beq_eq_false_iff_ne,
        ne_eq] at h <;>
      simp [convertRoletoString, h.1, h.2]
  refine ⟨h1, ?_⟩
  intro fs T portName wakes cbPresent hfn
  have hmem : Action.fwrite (appendRoleNodeHelper fs portName (PortRole.mk t r).type).1 "none"
      ∈ (if (PortRole.mk t r).type = PortRoleType.MODE then
          ((switchMode fs T portName ⟨t, r⟩ wakes).roleSwitch,
           (switchMode fs T portName ⟨t, r⟩ wakes).trace,
           (switchMode fs T portName ⟨t, r⟩ wakes).waited)
         else
          if fs.writeOk (appendRoleNodeHelper fs portName (PortRole.mk t r).type).1 then
            match fs.read (appendRoleNodeHelper fs portName (PortRole.mk t r).type).1 with
            | some written =>
              (extractRole written = convertRoletoString ⟨t, r⟩,
               [Action.fwrite (appendRoleNodeHelper fs portName (PortRole.mk t r).type).1
                  (convertRoletoString ⟨t, r⟩),
                Action.fread (appendRoleNodeHelper fs portName (PortRole.mk t r).type).1], 0)
            | none =>
              (false,
               [Action.fwrite (appendRoleNodeHelper fs portName (PortRole.mk t r).type).1
                  (convertRoletoString ⟨t, r⟩),
                Action.fread (appendRoleNodeHelper fs portName (PortRole.mk t r).type).1], 0)
          else
            (false,
             [Action.fwrite (appendRoleNodeHelper fs portName (PortRole.mk t r).type).1
                (convertRoletoString ⟨t, r⟩)], 0)).2.1 := by
    by_cases hm : (PortRole.mk t r).type = PortRoleType.MODE
    · rw [if_pos hm]
      unfold switchMode
      rw [if_neg hfn]
      by_cases hw : fs.writeOk (appendRoleNodeHelper fs portName (PortRole.mk t r).type).1
      · rw [if_pos hw]
        by_cases hc : (waitLoop T wakes).1 <;> simp [hc, h1]
      · rw [if_neg hw]
        simp [h1]
    · rw [if_neg hm]
      by_cases hw : fs.writeOk (appendRoleNodeHelper fs portName (PortRole.mk t r).type).1
      · rw [if_pos hw]
        cases hr : fs.read (appendRoleNodeHelper fs portName (PortRole.mk t r).type).1 <;>
          simp [h1]
      · rw [if_neg hw]
        simp [h1]
  unfold switchRole
  rw [if_neg hfn]
  simp only [List.mem_append]
  left; left; left; right
  exact hmem

/-- Claim C10 witness: the out-of-vocabulary request `POWER_ROLE`/0
(`PortPowerRole::NONE`) converts to `"none"` and `"none"` is written to
`port1`'s power-role node. -/
theorem C10_unrecognized_role_writes_none_witness :
    convertRoletoString ⟨PortRoleType.POWER_ROLE, 0⟩ = "none" ∧
    Action.fwrite "/sys/class/typec/port1/power_role" "none"
      ∈ (switchRole fsMode 1 "port1" ⟨PortRoleType.POWER_ROLE, 0⟩ [] true).trace :=
  ⟨(C10_unrecognized_role_writes_none ⟨PortRoleType.POWER_ROLE, 0⟩ (by decide)).1,
   (C10_unrecognized_role_writes_none ⟨PortRoleType.POWER_ROLE, 0⟩ (by decide)).2
     fsMode 1 "port1" [] true (by decide)⟩

/-- Claim C1 (corrected), counterexample: a Mode switch with deadline 3 in
which the flag is never set, with a single spurious wake after 2 time units
(valid: before the deadline) followed by the timeout.  The loop re-arms
the wait with a fresh full deadline (`clock_gettime` runs again under the
`wait_again:` label), so the total time in the timed wait is 2 + 3 = 5,
which is *not* within [0, 3]: spurious wakeups do postpone the timeout,
contradicting the claim that the wait re-arms against the original
deadline. -/
theorem C1_counterexample :
    wakesValid 3 [WakeEvent.woke false 2, WakeEvent.timedout] = true ∧
    (switchMode fsMode 3 "port0" ⟨PortRoleType.MODE, PortMode_1_1_UFP⟩
        [WakeEvent.woke false 2, WakeEvent.timedout]).roleSwitch = false ∧
    (switchMode fsMode 3 "port0" ⟨PortRoleType.MODE, PortMode_1_1_UFP⟩
        [WakeEvent.woke false 2, WakeEvent.timedout]).waited = 5 ∧
    ¬((switchMode fsMode 3 "port0" ⟨PortRoleType.MODE, PortMode_1_1_UFP⟩
        [WakeEvent.woke false 2, WakeEvent.timedout]).waited ≤ 3) := by
  decide

/-- Claim C1 (corrected → amended): each wake that finds the flag unset
restarts the *full* timeout against a fresh deadline, so for a Mode switch
whose confirmation never arrives the total time in the timed wait is the
sum of the spurious-wake delays plus one full timeout: at least `T` and at
most `(spuriousCount + 1) * T` when every spurious wake occurs before its
own deadline — it may exceed `T`, and grows with the number of spurious
wakes. -/
theorem C1_amended_timeout_window (fs : FS) (T : Nat) (portName : String)
    (newRole : PortRole) (wakes : List WakeEvent)
    (hType : newRole.type = PortRoleType.MODE)
    (hfn : (appendRoleNodeHelper fs portName newRole.type).1 ≠ "")
    (hw : fs.writeOk (appendRoleNodeHelper fs portName newRole.type).1 = true)
    (hv : wakesValid T wakes = true)
    (hc : confirmedBeforeDeadline wakes = false) :
    (switchMode fs T portName newRole wakes).roleSwitch = false ∧
    T ≤ (switchMode fs T portName newRole wakes).waited ∧
    (switchMode fs T portName newRole wakes).waited ≤ (spuriousCount wakes + 1) * T := by
  have hw1 : (waitLoop T wakes).1 = false := by rw [waitLoop_fst, hc]
  have hb := waitLoop_timeout_bounds T wakes hv hc
  simp only [switchMode]
  rw [if_neg hfn, if_pos hw, if_neg (by simp [hw1])]
  exact ⟨rfl, hb.1, hb.2⟩

/-- Claim C1 amended witness: the counterexample trace satisfies the
amended bounds — total wait 5 with one spurious wake and deadline 3 lies in
[3, (1 + 1) * 3]. -/
theorem C1_amended_timeout_window_witness :
    (switchMode fsMode 3 "port0" ⟨PortRoleType.MODE, PortMode_1_1_UFP⟩
        [WakeEvent.woke false 2, WakeEvent.timedout]).roleSwitch = false ∧
    3 ≤ (switchMode fsMode 3 "port0" ⟨PortRoleType.MODE, PortMode_1_1_UFP⟩
        [WakeEvent.woke false 2, WakeEvent.timedout]).waited ∧
    (switchMode fsMode 3 "port0" ⟨PortRoleType.MODE, PortMode_1_1_UFP⟩
        [WakeEvent.woke false 2, WakeEvent.timedout]).waited ≤
      (spuriousCount [WakeEvent.woke false 2, WakeEvent.timedout] + 1) * 3 :=
  C1_amended_timeout_window fsMode 3 "port0" ⟨PortRoleType.MODE, PortMode_1_1_UFP⟩
    [WakeEvent.woke false 2, WakeEvent.timedout]
    rfl (by decide) rfl (by decide) (by decide)

/-- Claim C2 (corrected), counterexample: a DataRole switch of `port1` to
device in which the node accepts the write, the read-back matches, and no
partner-added event ever arrives (empty wake oracle).  The reported outcome
is SUCCESS, delivered with zero time spent waiting — not failure after the
configured timeout (here 5) — because the non-Mode path of `switchRole`
never waits on the partner signal at all.  (No fallback write occurs, the
one part of the claim that matches the code.) -/
theorem C2_counterexample :
    (switchRole fsData 5 "port1" ⟨PortRoleType.DATA_ROLE, PortDataRole_DEVICE⟩
        [] true).result = some true ∧
    (switchRole fsData 5 "port1" ⟨PortRoleType.DATA_ROLE, PortDataRole_DEVICE⟩
        [] true).waited = 0 ∧
    countDual (switchRole fsData 5 "port1"
        ⟨PortRoleType.DATA_ROLE, PortDataRole_DEVICE⟩ [] true).trace = 0 ∧
    Action.notifyRole "port1" ⟨PortRoleType.DATA_ROLE, PortDataRole_DEVICE⟩
        Status.SUCCESS
      ∈ (switchRole fsData 5 "port1" ⟨PortRoleType.DATA_ROLE, PortDataRole_DEVICE⟩
          [] true).trace := by
  decide

/-- Claim C2 (corrected → amended): a DataRole switch whose sysfs write
succeeds is decided immediately — zero time in any timed wait, no use of
the partner signal — by reading the node back and comparing the
bracket-extracted value with the requested role string; and no fallback
(`"dual"`) write is performed on any outcome of the Data axis. -/
theorem C2_amended_data_role_immediate (fs : FS) (T : Nat) (portName : String)
    (newRole : PortRole) (wakes : List WakeEvent) (cbPresent : Bool)
    (hType : newRole.type = PortRoleType.DATA_ROLE)
    (hfn : (appendRoleNodeHelper fs portName newRole.type).1 ≠ "")
    (hw : fs.writeOk (appendRoleNodeHelper fs portName newRole.type).1 = true) :
    (switchRole fs T portName newRole wakes cbPresent).waited = 0 ∧
    countDual (switchRole fs T portName newRole wakes cbPresent).trace = 0 ∧
    Action.lock LockId.partner
      ∉ (switchRole fs T portName newRole wakes cbPresent).trace ∧
    ((switchRole fs T portName newRole wakes cbPresent).result = some true ↔
      ∃ w, fs.read (appendRoleNodeHelper fs portName newRole.type).1 = some w ∧
        extractRole w = convertRoletoString newRole) := by
  obtain ⟨t, r⟩ := newRole
  simp only at hType
  subst hType
  have hne := convertRoletoString_ne_dual ⟨PortRoleType.DATA_ROLE, r⟩
  have hda := appendRoleNodeHelper_data_acts fs portName
  simp only [switchRole]
  rw [if_neg hfn]
  rw [if_neg (by simp : ¬((PortRole.mk PortRoleType.DATA_ROLE r).type = PortRoleType.MODE))]
  rw [if_pos hw]
  cases hr : fs.read (appendRoleNodeHelper fs portName
      (PortRole.mk PortRoleType.DATA_ROLE r).type).1 with
  | none =>
    refine ⟨rfl, ?_, ?_, ?_⟩
    · rw [hda]
      cases cbPresent <;> simp [countDual, isDualWrite, hne]
    · rw [hda]
      cases cbPresent <;> simp
    · simp
  | some w =>
    refine ⟨rfl, ?_, ?_, ?_⟩
    · rw [hda]
      cases cbPresent <;> simp [countDual, isDualWrite, hne]
    · rw [hda]
      cases cbPresent <;> simp
    · simp

/-- Claim C2 amended witness: the theorem at the counterexample input —
read-back `"[device]"` matches the requested `"device"`, so the immediate
result is success. -/
theorem C2_amended_data_role_immediate_witness :
    (switchRole fsData 5 "port1" ⟨PortRoleType.DATA_ROLE, PortDataRole_DEVICE⟩
        [] true).waited = 0 ∧
    countDual (switchRole fsData 5 "port1"
        ⟨PortRoleType.DATA_ROLE, PortDataRole_DEVICE⟩ [] true).trace = 0 ∧
    Action.lock LockId.partner
      ∉ (switchRole fsData 5 "port1" ⟨PortRoleType.DATA_ROLE, PortDataRole_DEVICE⟩
          [] true).trace ∧
    ((switchRole fsData 5 "port1" ⟨PortRoleType.DATA_ROLE, PortDataRole_DEVICE⟩
        [] true).result = some true ↔
      ∃ w, fsData.read (appendRoleNodeHelper fsData "port1"
          (PortRole.mk PortRoleType.DATA_ROLE PortDataRole_DEVICE).type).1 = some w ∧
        extractRole w = convertRoletoString ⟨PortRoleType.DATA_ROLE, PortDataRole_DEVICE⟩) :=
  C2_amended_data_role_immediate fsData 5 "port1"
    ⟨PortRoleType.DATA_ROLE, PortDataRole_DEVICE⟩ [] true rfl (by decide) rfl

/-- Claim C3 (confirmed): for a Mode-axis switch with a valid node path —
if the role write succeeds and the confirmation arrives before a deadline
expiry, `switchMode` reports success with no fallback write; if the write
succeeds but every wake up to the deadline finds the flag unset, it
reports failure with exactly one `"dual"` write, to the Mode node; and if
the initial write itself fails it reports failure without waiting and
performs the one fallback write. -/
theorem C3_mode_switch_outcomes (fs : FS) (T : Nat) (portName : String)
    (newRole : PortRole) (wakes : List WakeEvent)
    (hType : newRole.type = PortRoleType.MODE)
    (hfn : (appendRoleNodeHelper fs portName newRole.type).1 ≠ "") :
    (fs.writeOk (appendRoleNodeHelper fs portName newRole.type).1 = true →
      (confirmedBeforeDeadline wakes = true →
        (switchMode fs T portName newRole wakes).roleSwitch = true ∧
        countDual (switchMode fs T portName newRole wakes).trace = 0) ∧
      (confirmedBeforeDeadline wakes = false →
        (switchMode fs T portName newRole wakes).roleSwitch = false ∧
        countDual (switchMode fs T portName newRole wakes).trace = 1 ∧
        Action.fwrite (appendRoleNodeHelper fs portName PortRoleType.MODE).1 "dual"
          ∈ (switchMode fs T portName newRole wakes).trace)) ∧
    (fs.writeOk (appendRoleNodeHelper fs portName newRole.type).1 = false →
      (switchMode fs T portName newRole wakes).roleSwitch = false ∧
      (switchMode fs T portName newRole wakes).waited = 0 ∧
      countDual (switchMode fs T portName newRole wakes).trace = 1) := by
  have hne := convertRoletoString_ne_dual newRole
  constructor
  · intro hw
    constructor
    · intro hc
      have hw1 : (waitLoop T wakes).1 = true := by rw [waitLoop_fst, hc]
      simp only [switchMode]
      rw [if_neg hfn, if_pos hw, if_pos hw1]
      refine ⟨rfl, ?_⟩
      simp only [SwitchModeOut.trace]
      rw [countDual_append, countDual_append, countDual_append,
        countDual_appendRoleNodeHelper, countDual_replicate_timedwait]
      simp [countDual, isDualWrite, hne]
    · intro hc
      have hw1 : (waitLoop T wakes).1 = false := by rw [waitLoop_fst, hc]
      simp only [switchMode]
      rw [if_neg hfn, if_pos hw, if_neg (by simp [hw1])]
      refine ⟨rfl, ?_, ?_⟩
      · simp only [SwitchModeOut.trace]
        rw [countDual_append, countDual_append, countDual_append,
          countDual_append, countDual_appendRoleNodeHelper,
          countDual_replicate_timedwait, countDual_switchToDrp]
        simp [countDual, isDualWrite, hne]
      · simp only [SwitchModeOut.trace]
        rw [hType]
        simp [switchToDrp, List.mem_append]
  · intro hw
    simp only [switchMode]
    rw [if_neg hfn, if_neg (by simp [hw])]
    refine ⟨rfl, rfl, ?_⟩
    simp only [SwitchModeOut.trace]
    rw [countDual_append, countDual_append, countDual_append,
      countDual_appendRoleNodeHelper, countDual_switchToDrp]
    simp [countDual, isDualWrite, hne]

/-- Claim C3 witness: at a concrete Mode switch over `fsMode` — with the
confirmation arriving after 1 time unit the switch succeeds with no
fallback write. -/
theorem C3_mode_switch_outcomes_witness :
    (switchMode fsMode 3 "port0" ⟨PortRoleType.MODE, PortMode_1_1_DFP⟩
        [WakeEvent.woke true 1]).roleSwitch = true ∧
    countDual (switchMode fsMode 3 "port0" ⟨PortRoleType.MODE, PortMode_1_1_DFP⟩
        [WakeEvent.woke true 1]).trace = 0 :=
  ((C3_mode_switch_outcomes fsMode 3 "port0" ⟨PortRoleType.MODE, PortMode_1_1_DFP⟩
      [WakeEvent.woke true 1] rfl (by decide)).1 rfl).1 rfl

/-! ## All actions of the status-aggregation helpers are filesystem
accesses (no lock, flag, or notification activity) -/

theorem getAccessoryConnected_acts_file (fs : FS) (p : String) :
    ∀ a ∈ (getAccessoryConnected fs p).2.2, isFileAct a = true := by
  intro a ha
  simp only [getAccessoryConnected] at ha
  split at ha <;> (simp at ha; rw [ha]; rfl)

theorem readRoleNode_acts_file (fs : FS) (p : String) (t : PortRoleType)
    (acc : List Action) (hacc : ∀ a ∈ acc, isFileAct a = true) :
    ∀ a ∈ (readRoleNode fs p t acc).2.2, isFileAct a = true := by
  have key : ∀ a ∈ acc ++ (appendRoleNodeHelper fs p t).2 ++
      [Action.fread (appendRoleNodeHelper fs p t).1], isFileAct a = true := by
    intro a ha
    simp only [List.mem_append, List.mem_singleton] at ha
    rcases ha with (ha | ha) | ha
    · exact hacc a ha
    · exact appendRoleNodeHelper_acts_file fs p t a ha
    · rw [ha]; rfl
  intro a ha
  simp only [readRoleNode] at ha
  split at ha
  · exact key a ha
  · split_ifs at ha <;> exact key a ha

theorem getCurrentRoleHelper_acts_file (fs : FS) (p : String) (conn : Bool)
    (t : PortRoleType) :
    ∀ a ∈ (getCurrentRoleHelper fs p conn t).2.2, isFileAct a = true := by
  intro a ha
  simp only [getCurrentRoleHelper] at ha
  split_ifs at ha
  · simp at ha
  · exact getAccessoryConnected_acts_file fs p a ha
  · exact getAccessoryConnected_acts_file fs p a ha
  · exact getAccessoryConnected_acts_file fs p a ha
  · exact readRoleNode_acts_file fs p t _ (getAccessoryConnected_acts_file fs p) a ha
  · exact readRoleNode_acts_file fs p t [] (by simp) a ha

theorem canSwitchRoleHelper_acts_file (fs : FS) (p : String) :
    ∀ a ∈ (canSwitchRoleHelper fs p).2, isFileAct a = true := by
  intro a ha
  simp only [canSwitchRoleHelper] at ha
  split at ha <;> (simp at ha; rw [ha]; rfl)

/-- Every action in the list is a filesystem access. -/
def AllFile (tr : List Action) : Prop := ∀ a ∈ tr, isFileAct a = true

theorem AllFile_nil : AllFile [] := by intro a ha; simp at ha

theorem AllFile_append {xs ys : List Action} (hx : AllFile xs) (hy : AllFile ys) :
    AllFile (xs ++ ys) := by
  intro a ha
  rcases List.mem_append.mp ha with ha | ha
  · exact hx a ha
  · exact hy a ha

theorem AllFile_fread (p : String) : AllFile [Action.fread p] := by
  intro a ha
  simp at ha
  rw [ha]; rfl

theorem portStatusLoop_acts_file (fs : FS) (v10 : Bool) (cpath : String) :
    ∀ l, AllFile (portStatusLoop fs v10 cpath l).2.2 := by
  intro l
  induction l with
  | nil => exact AllFile_nil
  | cons hd tl ih =>
    obtain ⟨p, conn⟩ := hd
    simp only [portStatusLoop]
    split_ifs <;>
      repeat' first
        | exact getCurrentRoleHelper_acts_file fs p conn PortRoleType.POWER_ROLE
        | exact getCurrentRoleHelper_acts_file fs p conn PortRoleType.DATA_ROLE
        | exact getCurrentRoleHelper_acts_file fs p conn PortRoleType.MODE
        | exact canSwitchRoleHelper_acts_file fs p
        | exact ih
        | exact AllFile_nil
        | exact AllFile_fread _
        | apply AllFile_append
        | split

theorem getPortStatusHelper_acts_file (fs : FS) (v10 : Bool) (cpath : String) :
    ∀ a ∈ (getPortStatusHelper fs v10 cpath).2.2, isFileAct a = true := by
  intro a ha
  simp only [getPortStatusHelper] at ha
  split_ifs at ha
  · simp at ha
  · exact portStatusLoop_acts_file fs v10 cpath _ a ha

/-- Claim C8 (confirmed): on a power-supply uevent for the `"usb"` supply,
with a V1_2 callback registered and a readable configured moisture file, a
status notification is pushed if and only if the freshly read presence
value differs from the recorded `mContaminantPresence`; the recorded value
always equals the fresh reading afterwards (updated on change, already
equal otherwise), so repeated identical readings produce no duplicate
notification. -/
theorem C8_contaminant_debounce (fs : FS) (usb : Usb) (fields : List String)
    (trylockOk : Bool) (s : String)
    (hname : psyNameCheck fields = true)
    (hpath : usb.mContaminantStatusPath ≠ "")
    (hread : fs.read usb.mContaminantStatusPath = some s) :
    ((handle_psy_uevent fs usb fields true trylockOk).2.1 = true ↔
      usb.mContaminantPresence ≠ (decide (s.toList.headD ' ' = '1'))) ∧
    (handle_psy_uevent fs usb fields true trylockOk).1.mContaminantPresence =
      (decide (s.toList.headD ' ' = '1')) := by
  simp only [handle_psy_uevent]
  rw [if_neg (by simp : ¬((true : Bool) = false))]
  rw [if_neg (by simp [hname] : ¬(psyNameCheck fields = false))]
  rw [if_neg hpath, hread]
  dsimp only
  by_cases hch : usb.mContaminantPresence = decide (s.toList.headD ' ' = '1')
  · rw [if_neg (show ¬(usb.mContaminantPresence ≠
        decide (s.toList.headD ' ' = '1')) by simp [hch])]
    simp [hch]
  · rw [if_pos hch]
    exact ⟨by simpa using hch, rfl⟩

theorem not_mem_append2 {x : Action} {xs ys : List Action}
    (hx : x ∉ xs) (hy : x ∉ ys) : x ∉ xs ++ ys := by
  intro h
  rcases List.mem_append.mp h with h | h
  · exact hx h
  · exact hy h

theorem AllFile_switchToDrp (fs : FS) (p : String) :
    AllFile (switchToDrp fs p) := by
  unfold switchToDrp
  refine AllFile_append (appendRoleNodeHelper_acts_file fs p _) ?_
  intro a ha
  simp at ha
  rw [ha]; rfl

theorem setPartnerTrue_not_mem_of_AllFile {tr : List Action} (h : AllFile tr) :
    Action.setPartner true ∉ tr := by
  intro hm
  have := h _ hm
  simp [isFileAct] at this

theorem not_mem_of_AllFile {x : Action} (hx : isFileAct x = false)
    {tr : List Action} (h : AllFile tr) : x ∉ tr := by
  intro hm
  have := h _ hm
  rw [hx] at this
  cases this

theorem setPartnerTrue_not_mem_switchMode (fs : FS) (T : Nat) (p : String)
    (r : PortRole) (w : List WakeEvent) :
    Action.setPartner true ∉ (switchMode fs T p r w).trace := by
  simp only [switchMode]
  split_ifs <;>
    repeat' first
      | apply not_mem_append2
      | exact setPartnerTrue_not_mem_of_AllFile (appendRoleNodeHelper_acts_file fs p _)
      | exact setPartnerTrue_not_mem_of_AllFile (AllFile_switchToDrp fs p)
      | (intro hm; simp at hm)

theorem setPartnerTrue_not_mem_switchRole (fs : FS) (T : Nat) (p : String)
    (r : PortRole) (w : List WakeEvent) (cb : Bool) :
    Action.setPartner true ∉ (switchRole fs T p r w cb).trace := by
  simp only [switchRole]
  split_ifs <;>
    repeat' first
      | apply not_mem_append2
      | exact setPartnerTrue_not_mem_of_AllFile (appendRoleNodeHelper_acts_file fs p _)
      | exact setPartnerTrue_not_mem_switchMode fs T p r w
      | split
      | (intro hm; simp at hm)

theorem setPartnerTrue_not_mem_queryPortStatus (fs : FS) (usb : Usb)
    (cb v10 : Bool) :
    Action.setPartner true ∉ queryPortStatus fs usb cb v10 := by
  simp only [queryPortStatus]
  repeat' first
    | apply not_mem_append2
    | exact setPartnerTrue_not_mem_of_AllFile
        (getPortStatusHelper_acts_file fs v10 usb.mContaminantStatusPath)
    | split
    | (intro hm; simp at hm)

theorem typec_power_section_mPartnerUp (fs : FS) (u : Usb) :
    (typec_power_section fs u).1.mPartnerUp = u.mPartnerUp := by
  simp only [typec_power_section]
  split
  · rfl
  · split_ifs <;> rfl

theorem typec_power_section_no_setTrue (fs : FS) (u : Usb) :
    Action.setPartner true ∉ (typec_power_section fs u).2 := by
  simp only [typec_power_section]
  split
  · intro hm; simp at hm
  · split_ifs <;> (intro hm; simp at hm)

theorem handle_typec_mPartnerUp (fs : FS) (usb : Usb) (msg : String)
    (cb v10 : Bool) :
    (handle_typec_uevent fs usb msg cb v10).1.mPartnerUp =
      (usb.mPartnerUp || partnerAddMatch msg) := by
  cases hpm : partnerAddMatch msg
  case false =>
    simp only [handle_typec_uevent, hpm, Bool.false_eq_true, if_false,
      Bool.or_false]
    exact typec_power_section_mPartnerUp fs usb
  case true =>
    simp only [handle_typec_uevent, hpm, if_true, Bool.or_true]
    rw [typec_power_section_mPartnerUp]

theorem handle_typec_no_setTrue (fs : FS) (usb : Usb) (msg : String)
    (cb v10 : Bool) (hpm : partnerAddMatch msg = false) :
    Action.setPartner true ∉ (handle_typec_uevent fs usb msg cb v10).2 := by
  simp only [handle_typec_uevent, hpm, Bool.false_eq_true, if_false,
    List.nil_append]
  exact not_mem_append2 (typec_power_section_no_setTrue fs _)
    (setPartnerTrue_not_mem_queryPortStatus fs _ cb v10)

theorem setPartnerB_isFile_false (b : Bool) :
    isFileAct (Action.setPartner b) = false := rfl

theorem lockPartner_isFile_false :
    isFileAct (Action.lock LockId.partner) = false := rfl

theorem unlockPartner_isFile_false :
    isFileAct (Action.unlock LockId.partner) = false := rfl

/-- A non-Mode switch attempt never touches the partner signal: its whole
trace contains no `mPartnerUp` write of either value and no acquisition or
release of the partner lock, on every path (invalid name, write failure,
unreadable read-back, matching or mismatching read-back, with or without a
registered callback). -/
theorem switchRole_nonMode_no_partner (fs : FS) (T : Nat) (portName : String)
    (newRole : PortRole) (wakes : List WakeEvent) (cbPresent : Bool)
    (hm : newRole.type ≠ PortRoleType.MODE) :
    (∀ b, Action.setPartner b
       ∉ (switchRole fs T portName newRole wakes cbPresent).trace) ∧
    Action.lock LockId.partner
      ∉ (switchRole fs T portName newRole wakes cbPresent).trace ∧
    Action.unlock LockId.partner
      ∉ (switchRole fs T portName newRole wakes cbPresent).trace := by
  have hfile := appendRoleNodeHelper_acts_file fs portName newRole.type
  refine ⟨?_, ?_, ?_⟩
  · intro b
    simp only [switchRole]
    split_ifs <;>
      repeat' first
        | exact absurd (by assumption) hm
        | apply not_mem_append2
        | exact not_mem_of_AllFile (setPartnerB_isFile_false b) hfile
        | split
        | (intro hmem; simp at hmem)
  · simp only [switchRole]
    split_ifs <;>
      repeat' first
        | exact absurd (by assumption) hm
        | apply not_mem_append2
        | exact not_mem_of_AllFile lockPartner_isFile_false hfile
        | split
        | (intro hmem; simp at hmem)
  · simp only [switchRole]
    split_ifs <;>
      repeat' first
        | exact absurd (by assumption) hm
        | apply not_mem_append2
        | exact not_mem_of_AllFile unlockPartner_isFile_false hfile
        | split
        | (intro hmem; simp at hmem)

/-- Claim C4 (corrected), counterexample: a switch attempt on the
`DATA_ROLE` axis — a real attempt: it acquires the switch lock and writes
the role — never resets the partner-observed flag and never touches the
partner lock; only Mode-axis attempts do.  So it is not the case that the
flag is reset at the start of *every* switch attempt. -/
theorem C4_counterexample :
    (switchRole fsData 5 "port1" ⟨PortRoleType.DATA_ROLE, PortDataRole_DEVICE⟩
        [] true).trace ≠ [] ∧
    Action.fwrite "/sys/class/typec/port1/data_role" "device"
      ∈ (switchRole fsData 5 "port1" ⟨PortRoleType.DATA_ROLE, PortDataRole_DEVICE⟩
          [] true).trace ∧
    Action.setPartner false
      ∉ (switchRole fsData 5 "port1" ⟨PortRoleType.DATA_ROLE, PortDataRole_DEVICE⟩
          [] true).trace ∧
    Action.lock LockId.partner
      ∉ (switchRole fsData 5 "port1" ⟨PortRoleType.DATA_ROLE, PortDataRole_DEVICE⟩
          [] true).trace := by
  decide

/-- Claim C4 (corrected → amended): the partner-signal invariant holds for
the attempts that use the signal — (a) every Mode-axis attempt that passes
path validation resets `mPartnerUp` to `false` immediately after acquiring
the partner lock (and before the role write), releasing the lock later;
(b) no Coordinator path (`switchRole`, any axis, hence also `switchMode`)
ever sets the flag to `true`; (c) the Monitor's typec-uevent handler sets
it to `true`, under the partner lock and as its first four actions, exactly
when the message matches `add@...-partner`, and the flag after the handler
is the disjunction of its prior value with that match; (d) a switch attempt
on either non-Mode axis never touches the flag (neither value) or the
partner lock, on any path. -/
theorem C4_amended_partner_flag_invariant :
    (∀ (fs : FS) (T : Nat) (portName : String) (newRole : PortRole)
       (wakes : List WakeEvent),
       (appendRoleNodeHelper fs portName newRole.type).1 ≠ "" →
       ∃ post, (switchMode fs T portName newRole wakes).trace =
           (appendRoleNodeHelper fs portName newRole.type).2 ++
             [Action.lock LockId.partner, Action.setPartner false] ++ post ∧
         Action.unlock LockId.partner ∈ post) ∧
    (∀ (fs : FS) (T : Nat) (portName : String) (newRole : PortRole)
       (wakes : List WakeEvent) (cbPresent : Bool),
       Action.setPartner true
         ∉ (switchRole fs T portName newRole wakes cbPresent).trace) ∧
    (∀ (fs : FS) (usb : Usb) (msg : String) (cbPresent v10 : Bool),
       (Action.setPartner true ∈ (handle_typec_uevent fs usb msg cbPresent v10).2 ↔
         partnerAddMatch msg = true) ∧
       (handle_typec_uevent fs usb msg cbPresent v10).1.mPartnerUp =
         (usb.mPartnerUp || partnerAddMatch msg) ∧
       (partnerAddMatch msg = true →
         ∃ post, (handle_typec_uevent fs usb msg cbPresent v10).2 =
           [Action.lock LockId.partner, Action.setPartner true, Action.signalCV,
            Action.unlock LockId.partner] ++ post)) ∧
    (∀ (fs : FS) (T : Nat) (portName : String) (newRole : PortRole)
       (wakes : List WakeEvent) (cbPresent : Bool),
       newRole.type ≠ PortRoleType.MODE →
       (∀ b, Action.setPartner b
          ∉ (switchRole fs T portName newRole wakes cbPresent).trace) ∧
       Action.lock LockId.partner
         ∉ (switchRole fs T portName newRole wakes cbPresent).trace ∧
       Action.unlock LockId.partner
         ∉ (switchRole fs T portName newRole wakes cbPresent).trace) := by
  refine ⟨?_, ?_, ?_, ?_⟩
  · intro fs T portName newRole wakes hfn
    simp only [switchMode]
    rw [if_neg hfn]
    by_cases hw : fs.writeOk (appendRoleNodeHelper fs portName newRole.type).1
    · rw [if_pos hw]
      by_cases hc : (waitLoop T wakes).1
      · rw [if_pos hc]
        refine ⟨[Action.fwrite (appendRoleNodeHelper fs portName newRole.type).1
            (convertRoletoString newRole)] ++
          List.replicate (waitLoop T wakes).2.2 Action.timedwait ++
          [Action.unlock LockId.partner], ?_, by simp⟩
        simp [List.append_assoc]
      · rw [if_neg hc]
        refine ⟨[Action.fwrite (appendRoleNodeHelper fs portName newRole.type).1
            (convertRoletoString newRole)] ++
          List.replicate (waitLoop T wakes).2.2 Action.timedwait ++
          [Action.unlock LockId.partner] ++ switchToDrp fs portName, ?_, by simp⟩
        simp [List.append_assoc]
    · rw [if_neg hw]
      refine ⟨[Action.fwrite (appendRoleNodeHelper fs portName newRole.type).1
          (convertRoletoString newRole)] ++
        [Action.unlock LockId.partner] ++ switchToDrp fs portName, ?_, by simp⟩
      simp [List.append_assoc]
  · intro fs T portName newRole wakes cbPresent
    exact setPartnerTrue_not_mem_switchRole fs T portName newRole wakes cbPresent
  · intro fs usb msg cbPresent v10
    refine ⟨?_, handle_typec_mPartnerUp fs usb msg cbPresent v10, ?_⟩
    · constructor
      · intro hm
        by_contra hpm
        exact handle_typec_no_setTrue fs usb msg cbPresent v10
          (by simpa using hpm) hm
      · intro hpm
        simp only [handle_typec_uevent, hpm, if_true]
        apply List.mem_append.mpr
        left
        apply List.mem_append.mpr
        left
        simp
    · intro hpm
      simp only [handle_typec_uevent, hpm, if_true]
      refine ⟨(typec_power_section fs { usb with mPartnerUp := true }).2 ++
        queryPortStatus fs
          (typec_power_section fs { usb with mPartnerUp := true }).1
          cbPresent v10, ?_⟩
      simp [List.append_assoc]
  · intro fs T portName newRole wakes cbPresent hm
    exact switchRole_nonMode_no_partner fs T portName newRole wakes cbPresent hm

/-- Claim C4 amended witness: the Mode-axis decomposition at a concrete
input — the trace of a Mode switch on `fsMode` begins with the partner-lock
acquisition followed immediately by the flag reset — plus conjuncts (b),
(c), and (d) (a concrete `POWER_ROLE` attempt touching neither the flag
nor the partner lock) at concrete inputs. -/
theorem C4_amended_partner_flag_invariant_witness :
    (∃ post, (switchMode fsMode 3 "port0" ⟨PortRoleType.MODE, PortMode_1_1_UFP⟩
        [WakeEvent.timedout]).trace =
        (appendRoleNodeHelper fsMode "port0"
          (PortRole.mk PortRoleType.MODE PortMode_1_1_UFP).type).2 ++
          [Action.lock LockId.partner, Action.setPartner false] ++ post ∧
      Action.unlock LockId.partner ∈ post) ∧
    Action.setPartner true
      ∉ (switchRole fsMode 3 "port0" ⟨PortRoleType.MODE, PortMode_1_1_UFP⟩
          [WakeEvent.timedout] true).trace ∧
    (Action.setPartner true
        ∈ (handle_typec_uevent fsMode usbSnap "add@/devices/port0-partner" true false).2 ↔
      partnerAddMatch "add@/devices/port0-partner" = true) ∧
    Action.setPartner false
      ∉ (switchRole fsMode 3 "port0" ⟨PortRoleType.POWER_ROLE, PortPowerRole_SOURCE⟩
          [] true).trace ∧
    Action.lock LockId.partner
      ∉ (switchRole fsMode 3 "port0" ⟨PortRoleType.POWER_ROLE, PortPowerRole_SOURCE⟩
          [] true).trace :=
  ⟨C4_amended_partner_flag_invariant.1 fsMode 3 "port0"
      ⟨PortRoleType.MODE, PortMode_1_1_UFP⟩ [WakeEvent.timedout] (by decide),
   C4_amended_partner_flag_invariant.2.1 fsMode 3 "port0"
      ⟨PortRoleType.MODE, PortMode_1_1_UFP⟩ [WakeEvent.timedout] true,
   (C4_amended_partner_flag_invariant.2.2.1 fsMode usbSnap
      "add@/devices/port0-partner" true false).1,
   (C4_amended_partner_flag_invariant.2.2.2 fsMode 3 "port0"
      ⟨PortRoleType.POWER_ROLE, PortPowerRole_SOURCE⟩ [] true (by decide)).1 false,
   (C4_amended_partner_flag_invariant.2.2.2 fsMode 3 "port0"
      ⟨PortRoleType.POWER_ROLE, PortPowerRole_SOURCE⟩ [] true (by decide)).2.1⟩

theorem portStatusLoop_status (fs : FS) (v10 : Bool) (cpath : String) :
    ∀ l, (portStatusLoop fs v10 cpath l).1 = Status.SUCCESS ∨
      (portStatusLoop fs v10 cpath l).1 = Status.ERROR := by
  intro l
  induction l with
  | nil => left; rfl
  | cons hd tl ih =>
    obtain ⟨p, conn⟩ := hd
    simp only [portStatusLoop]
    split_ifs <;> first | (right; rfl) | exact ih

theorem getPortStatusHelper_status (fs : FS) (v10 : Bool) (cpath : String) :
    (getPortStatusHelper fs v10 cpath).1 = Status.SUCCESS ∨
      (getPortStatusHelper fs v10 cpath).1 = Status.ERROR := by
  simp only [getPortStatusHelper]
  split_ifs
  · right; rfl
  · exact portStatusLoop_status fs v10 cpath _

/-- Claim C9 (corrected), counterexample: the connected port `port0` whose
`power_role` node reads the out-of-vocabulary `"banana"`.
`getCurrentRoleHelper` does return the distinct `UNRECOGNIZED_ROLE` — but
`getPortStatusHelper` collapses it to the generic `ERROR` (the source's
`goto done`), and the status pushed to the registered callback by the
status query is `ERROR`, never `UNRECOGNIZED_ROLE`.  So the status
surfaced to the caller is the generic error code, not the distinct one. -/
theorem C9_counterexample :
    (getCurrentRoleHelper fsSnap "port0" true PortRoleType.POWER_ROLE).1 =
      Status.UNRECOGNIZED_ROLE ∧
    (getPortStatusHelper fsSnap false "").1 = Status.ERROR ∧
    Action.notifyStatus Status.ERROR ∈ queryPortStatus fsSnap usbSnap true false ∧
    Action.notifyStatus Status.UNRECOGNIZED_ROLE
      ∉ queryPortStatus fsSnap usbSnap true false := by
  decide

/-- Claim C9 (corrected → amended): `getCurrentRoleHelper` distinguishes an
out-of-vocabulary sysfs value with the dedicated `UNRECOGNIZED_ROLE` code
(shown here for the power/data axes, where no accessory check intervenes) —
but the snapshot operation `getPortStatusHelper` only ever surfaces
`SUCCESS` or the generic `ERROR`: every helper failure, including
`UNRECOGNIZED_ROLE`, is collapsed to `ERROR`, so callers cannot observe
the distinct code through a status query. -/
theorem C9_amended_unrecognized_internal_only :
    (∀ (fs : FS) (portName : String) (type : PortRoleType),
       (type = PortRoleType.POWER_ROLE ∨ type = PortRoleType.DATA_ROLE) →
       ∀ w, fs.read (appendRoleNodeHelper fs portName type).1 = some w →
       extractRole w ∉ (["source", "sink", "host", "device", "none"] : List String) →
       (getCurrentRoleHelper fs portName true type).1 = Status.UNRECOGNIZED_ROLE) ∧
    (∀ (fs : FS) (v10 : Bool) (cpath : String),
       (getPortStatusHelper fs v10 cpath).1 = Status.SUCCESS ∨
       (getPortStatusHelper fs v10 cpath).1 = Status.ERROR) := by
  constructor
  · intro fs portName type ht w hread hnv
    have hnm : ¬(type = PortRoleType.MODE) := by
      rcases ht with h | h <;> rw [h] <;> simp
    simp only [List.mem_cons, List.mem_singleton, not_or] at hnv
    simp only [getCurrentRoleHelper]
    rw [if_neg (by simp : ¬((true : Bool) = false)), if_neg hnm]
    simp only [readRoleNode]
    rw [hread]
    simp only
    rw [if_neg hnv.1, if_neg hnv.2.1, if_neg hnv.2.2.1, if_neg hnv.2.2.2.1,
      if_neg hnv.2.2.2.2.1]
  · intro fs v10 cpath
    exact getPortStatusHelper_status fs v10 cpath

theorem countA_append (x : Action) (l r : List Action) :
    countA x (l ++ r) = countA x l + countA x r := by
  induction l with
  | nil => simp [countA]
  | cons a t ih => simp [countA, ih]; omega

theorem lockRS_isFile_false : isFileAct (Action.lock LockId.roleSwitch) = false :=
  rfl

theorem unlockRS_isFile_false :
    isFileAct (Action.unlock LockId.roleSwitch) = false := rfl

theorem lockRS_not_mem_switchMode (fs : FS) (T : Nat) (p : String)
    (r : PortRole) (w : List WakeEvent) :
    Action.lock LockId.roleSwitch ∉ (switchMode fs T p r w).trace := by
  simp only [switchMode]
  split_ifs <;>
    repeat' first
      | apply not_mem_append2
      | exact not_mem_of_AllFile lockRS_isFile_false
          (appendRoleNodeHelper_acts_file fs p _)
      | exact not_mem_of_AllFile lockRS_isFile_false (AllFile_switchToDrp fs p)
      | (intro hm; simp at hm)

theorem unlockRS_not_mem_switchMode (fs : FS) (T : Nat) (p : String)
    (r : PortRole) (w : List WakeEvent) :
    Action.unlock LockId.roleSwitch ∉ (switchMode fs T p r w).trace := by
  simp only [switchMode]
  split_ifs <;>
    repeat' first
      | apply not_mem_append2
      | exact not_mem_of_AllFile unlockRS_isFile_false
          (appendRoleNodeHelper_acts_file fs p _)
      | exact not_mem_of_AllFile unlockRS_isFile_false (AllFile_switchToDrp fs p)
      | (intro hm; simp at hm)

/-- The invariant that makes the mutex argument go through: per thread, the
executed `mRoleSwitchLock` releases never exceed the acquisitions, exceed
them by at most one, and the thread is strictly ahead exactly when it owns
the lock. -/
def LockInv (c : Config) : Prop :=
  ∀ i,
    countA (Action.unlock LockId.roleSwitch) (c.threads i).done ≤
      countA (Action.lock LockId.roleSwitch) (c.threads i).done ∧
    countA (Action.lock LockId.roleSwitch) (c.threads i).done ≤
      countA (Action.unlock LockId.roleSwitch) (c.threads i).done + 1 ∧
    (countA (Action.unlock LockId.roleSwitch) (c.threads i).done <
       countA (Action.lock LockId.roleSwitch) (c.threads i).done ↔
     c.held LockId.roleSwitch = some i)

theorem lockInv_init (progs : Nat → List Action) :
    LockInv (initConfig progs) := by
  intro i
  simp [initConfig, countA]

theorem lockInv_step {c c2 : Config} (h : Step c c2) (inv : LockInv c) :
    LockInv c2 := by
  cases h with
  | lockS i l rest hrest hfree =>
    intro j
    obtain ⟨h1, h2, h3⟩ := inv j
    by_cases hl : l = LockId.roleSwitch
    · subst hl
      have hall : ∀ k, ¬(countA (Action.unlock LockId.roleSwitch) (c.threads k).done <
          countA (Action.lock LockId.roleSwitch) (c.threads k).done) := by
        intro k hk
        have := ((inv k).2.2).mp hk
        rw [hfree] at this
        cases this
      by_cases hj : j = i
      · subst hj
        simp only [updThreads, updHeld, eq_self_iff_true, if_true]
        rw [countA_append, countA_append]
        have e1 : countA (Action.lock LockId.roleSwitch)
            [Action.lock LockId.roleSwitch] = 1 := by simp [countA]
        have e2 : countA (Action.unlock LockId.roleSwitch)
            [Action.lock LockId.roleSwitch] = 0 := by simp [countA]
        rw [e1, e2]
        have hnl := hall j
        refine ⟨by omega, by omega, ?_⟩
        constructor
        · intro _; trivial
        · intro _; omega
      · simp only [updThreads, if_neg hj, updHeld]
        refine ⟨h1, h2, ?_⟩
        simp only [eq_self_iff_true, if_true]
        constructor
        · intro hk
          exact absurd hk (hall j)
        · intro he
          exact absurd (Option.some.inj he).symm hj
    · have hLrs : Action.lock l ≠ Action.lock LockId.roleSwitch := by
        intro hcon
        exact hl (Action.lock.inj hcon)
      have hUrs : Action.lock l ≠ Action.unlock LockId.roleSwitch := by
        intro hcon; cases hcon
      by_cases hj : j = i
      · subst hj
        simp only [updThreads, updHeld, eq_self_iff_true, if_true]
        rw [countA_append, countA_append]
        have e1 : countA (Action.lock LockId.roleSwitch) [Action.lock l] = 0 := by
          simp [countA, hLrs]
        have e2 : countA (Action.unlock LockId.roleSwitch) [Action.lock l] = 0 := by
          simp [countA, hUrs]
        rw [e1, e2, if_neg (fun hcon => hl hcon.symm)]
        exact ⟨by omega, by omega, by rw [Nat.add_zero, Nat.add_zero]; exact h3⟩
      · simp only [updThreads, if_neg hj, updHeld]
        rw [if_neg (fun hcon => hl hcon.symm)]
        exact ⟨h1, h2, h3⟩
  | unlockS i l rest hrest hheld =>
    intro j
    obtain ⟨h1, h2, h3⟩ := inv j
    by_cases hl : l = LockId.roleSwitch
    · subst hl
      by_cases hj : j = i
      · subst hj
        simp only [updThreads, updHeld, eq_self_iff_true, if_true]
        rw [countA_append, countA_append]
        have e1 : countA (Action.lock LockId.roleSwitch)
            [Action.unlock LockId.roleSwitch] = 0 := by simp [countA]
        have e2 : countA (Action.unlock LockId.roleSwitch)
            [Action.unlock LockId.roleSwitch] = 1 := by simp [countA]
        rw [e1, e2]
        have hin : countA (Action.unlock LockId.roleSwitch) (c.threads j).done <
            countA (Action.lock LockId.roleSwitch) (c.threads j).done :=
          h3.mpr hheld
        refine ⟨by omega, by omega, ?_⟩
        constructor
        · intro hk
          exact absurd hk (by omega)
        · intro he; cases he
      · simp only [updThreads, if_neg hj, updHeld]
        refine ⟨h1, h2, ?_⟩
        simp only [eq_self_iff_true, if_true]
        constructor
        · intro hk
          have := h3.mp hk
          rw [hheld] at this
          exact absurd (Option.some.inj this) (fun he => hj he.symm)
        · intro he; cases he
    · have hLrs : Action.unlock l ≠ Action.lock LockId.roleSwitch := by
        intro hcon; cases hcon
      have hUrs : Action.unlock l ≠ Action.unlock LockId.roleSwitch := by
        intro hcon
        exact hl (Action.unlock.inj hcon)
      by_cases hj : j = i
      · subst hj
        simp only [updThreads, updHeld, eq_self_iff_true, if_true]
        rw [countA_append, countA_append]
        have e1 : countA (Action.lock LockId.roleSwitch) [Action.unlock l] = 0 := by
          simp [countA, hLrs]
        have e2 : countA (Action.unlock LockId.roleSwitch) [Action.unlock l] = 0 := by
          simp [countA, hUrs]
        rw [e1, e2, if_neg (fun hcon => hl hcon.symm)]
        exact ⟨by omega, by omega, by rw [Nat.add_zero, Nat.add_zero]; exact h3⟩
      · simp only [updThreads, if_neg hj, updHeld]
        rw [if_neg (fun hcon => hl hcon.symm)]
        exact ⟨h1, h2, h3⟩
  | otherS i a rest hrest hna hnu =>
    intro j
    obtain ⟨h1, h2, h3⟩ := inv j
    by_cases hj : j = i
    · subst hj
      simp only [updThreads, eq_self_iff_true, if_true]
      rw [countA_append, countA_append]
      have e1 : countA (Action.lock LockId.roleSwitch) [a] = 0 := by
        simp [countA, hna LockId.roleSwitch]
      have e2 : countA (Action.unlock LockId.roleSwitch) [a] = 0 := by
        simp [countA, hnu LockId.roleSwitch]
      rw [e1, e2]
      exact ⟨by omega, by omega, by rw [Nat.add_zero, Nat.add_zero]; exact h3⟩
    · simp only [updThreads, if_neg hj]
      exact ⟨h1, h2, h3⟩

theorem reachable_lockInv (progs : Nat → List Action) {c : Config}
    (h : Reachable progs c) : LockInv c := by
  induction h with
  | refl => exact lockInv_init progs
  | tail hsteps hstep ih => exact lockInv_step hstep ih

/-- Claim C5 (confirmed): (1) in any interleaving of concurrently invoked
`switchRole` calls under pthread-mutex semantics, at most one thread is
ever inside the `mRoleSwitchLock` critical section — at most one switch in
progress; (2) after path validation the entire attempt (the axis dispatch
body and the notification section) sits between the single acquisition and
the final release of `mRoleSwitchLock` — the only actions outside it are
the path-resolution `access` probes — and the notifier call sits between
the acquisition and release of the callback lock `mLock`; (3) the three
locks are pairwise distinct. -/
theorem C5_switch_serialization :
    (∀ (progs : Nat → List Action),
       (∀ i, ∃ fs T portName newRole wakes cbPresent,
          progs i = (switchRole fs T portName newRole wakes cbPresent).trace) →
       ∀ c, Reachable progs c →
       ∀ i j, insideSwitch (c.threads i) → insideSwitch (c.threads j) → i = j) ∧
    (∀ (fs : FS) (T : Nat) (portName : String) (newRole : PortRole)
       (wakes : List WakeEvent) (cbPresent : Bool),
       (appendRoleNodeHelper fs portName newRole.type).1 ≠ "" →
       ∃ body st,
         (switchRole fs T portName newRole wakes cbPresent).trace =
           (appendRoleNodeHelper fs portName newRole.type).2 ++
             [Action.lock LockId.roleSwitch] ++ body ++
             ([Action.lock LockId.cb] ++
              (if cbPresent then [Action.notifyRole portName newRole st] else []) ++
              [Action.unlock LockId.cb]) ++ [Action.unlock LockId.roleSwitch] ∧
         (∀ a ∈ (appendRoleNodeHelper fs portName newRole.type).2,
            isFileAct a = true) ∧
         Action.lock LockId.roleSwitch ∉ body ∧
         Action.unlock LockId.roleSwitch ∉ body) ∧
    (LockId.roleSwitch ≠ LockId.partner ∧ LockId.roleSwitch ≠ LockId.cb ∧
     LockId.partner ≠ LockId.cb) := by
  refine ⟨?_, ?_, by decide, by decide, by decide⟩
  · intro progs hprogs c hreach i j hi hj
    have inv := reachable_lockInv progs hreach
    have e1 := (inv i).2.2.mp hi
    have e2 := (inv j).2.2.mp hj
    rw [e1] at e2
    exact Option.some.inj e2
  · intro fs T portName newRole wakes cbPresent hfn
    simp only [switchRole]
    rw [if_neg hfn]
    by_cases hm : newRole.type = PortRoleType.MODE
    · rw [if_pos hm]
      refine ⟨(switchMode fs T portName newRole wakes).trace,
        (if (switchMode fs T portName newRole wakes).roleSwitch then
          Status.SUCCESS else Status.ERROR), ?_,
        appendRoleNodeHelper_acts_file fs portName newRole.type,
        lockRS_not_mem_switchMode fs T portName newRole wakes,
        unlockRS_not_mem_switchMode fs T portName newRole wakes⟩
      simp [List.append_assoc]
    · rw [if_neg hm]
      by_cases hw : fs.writeOk (appendRoleNodeHelper fs portName newRole.type).1
      · rw [if_pos hw]
        cases hr : fs.read (appendRoleNodeHelper fs portName newRole.type).1 with
        | none =>
          refine ⟨[Action.fwrite (appendRoleNodeHelper fs portName newRole.type).1
              (convertRoletoString newRole),
            Action.fread (appendRoleNodeHelper fs portName newRole.type).1],
            Status.ERROR, ?_, appendRoleNodeHelper_acts_file fs portName newRole.type,
            by intro hmem; simp at hmem, by intro hmem; simp at hmem⟩
          simp [List.append_assoc]
        | some w =>
          refine ⟨[Action.fwrite (appendRoleNodeHelper fs portName newRole.type).1
              (convertRoletoString newRole),
            Action.fread (appendRoleNodeHelper fs portName newRole.type).1],
            (if extractRole w = convertRoletoString newRole then
              Status.SUCCESS else Status.ERROR), ?_,
            appendRoleNodeHelper_acts_file fs portName newRole.type,
            by intro hmem; simp at hmem, by intro hmem; simp at hmem⟩
          simp [List.append_assoc]
      · rw [if_neg hw]
        refine ⟨[Action.fwrite (appendRoleNodeHelper fs portName newRole.type).1
            (convertRoletoString newRole)],
          Status.ERROR, ?_, appendRoleNodeHelper_acts_file fs portName newRole.type,
          by intro hmem; simp at hmem, by intro hmem; simp at hmem⟩
        simp [List.append_assoc]

/-- Programs for the C5 witness: every thread runs the same concrete
DataRole switch. -/
def progsW : Nat → List Action := fun _ =>
  (switchRole fsData 5 "port1" ⟨PortRoleType.DATA_ROLE, PortDataRole_DEVICE⟩
    [] true).trace

/-- The remainder of the witness program after its leading
`lock mRoleSwitchLock`. -/
def restW : List Action :=
  [Action.fwrite "/sys/class/typec/port1/data_role" "device",
   Action.fread "/sys/class/typec/port1/data_role",
   Action.lock LockId.cb,
   Action.notifyRole "port1" ⟨PortRoleType.DATA_ROLE, PortDataRole_DEVICE⟩
     Status.SUCCESS,
   Action.unlock LockId.cb, Action.unlock LockId.roleSwitch]

/-- The configuration after thread 0 acquires `mRoleSwitchLock`. -/
def c5step : Config :=
  { threads := updThreads (initConfig progsW).threads 0
      { done := ((initConfig progsW).threads 0).done ++
          [Action.lock LockId.roleSwitch]
        rest := restW }
    held := updHeld (initConfig progsW).held LockId.roleSwitch (some 0) }

/-- Claim C5 witness: the mutual-exclusion conclusion at a reachable
configuration in which thread 0 is inside the critical section (one
scheduler step from the start), and the trace decomposition at the
concrete DataRole switch. -/
theorem C5_switch_serialization_witness :
    (0 : Nat) = 0 ∧
    (∃ body st, (switchRole fsData 5 "port1"
        ⟨PortRoleType.DATA_ROLE, PortDataRole_DEVICE⟩ [] true).trace =
        (appendRoleNodeHelper fsData "port1"
          (PortRole.mk PortRoleType.DATA_ROLE PortDataRole_DEVICE).type).2 ++
          [Action.lock LockId.roleSwitch] ++ body ++
          ([Action.lock LockId.cb] ++
           (if true then [Action.notifyRole "port1"
              ⟨PortRoleType.DATA_ROLE, PortDataRole_DEVICE⟩ st] else []) ++
           [Action.unlock LockId.cb]) ++ [Action.unlock LockId.roleSwitch] ∧
        (∀ a ∈ (appendRoleNodeHelper fsData "port1"
            (PortRole.mk PortRoleType.DATA_ROLE PortDataRole_DEVICE).type).2,
           isFileAct a = true) ∧
        Action.lock LockId.roleSwitch ∉ body ∧
        Action.unlock LockId.roleSwitch ∉ body) := by
  constructor
  · have hstep : Step (initConfig progsW) c5step :=
      Step.lockS (initConfig progsW) 0 LockId.roleSwitch restW (by decide) rfl
    have hreach : Reachable progsW c5step := Relation.ReflTransGen.single hstep
    have hin : insideSwitch (c5step.threads 0) := by unfold insideSwitch; decide
    exact C5_switch_serialization.1 progsW
      (fun i => ⟨fsData, 5, "port1",
        ⟨PortRoleType.DATA_ROLE, PortDataRole_DEVICE⟩, [], true, rfl⟩)
      c5step hreach 0 0 hin hin
  · exact C5_switch_serialization.2.1 fsData 5 "port1"
      ⟨PortRoleType.DATA_ROLE, PortDataRole_DEVICE⟩ [] true (by decide)

/-- Claim C9 amended witness: the theorem at the `"banana"` input. -/
theorem C9_amended_unrecognized_internal_only_witness :
    (getCurrentRoleHelper fsSnap "port0" true PortRoleType.POWER_ROLE).1 =
      Status.UNRECOGNIZED_ROLE ∧
    ((getPortStatusHelper fsSnap false "").1 = Status.SUCCESS ∨
     (getPortStatusHelper fsSnap false "").1 = Status.ERROR) :=
  ⟨C9_amended_unrecognized_internal_only.1 fsSnap "port0" PortRoleType.POWER_ROLE
      (Or.inl rfl) "banana" (by decide) (by decide),
   C9_amended_unrecognized_internal_only.2 fsSnap false ""⟩

/-- Claim C8 witness: a fresh object (recorded presence `false`) over a
filesystem whose moisture file reads `"1"` — the reading differs, so a
notification is pushed and the recorded value becomes `true`. -/
theorem C8_contaminant_debounce_witness :
    ((handle_psy_uevent fsPsy usbPsy ["POWER_SUPPLY_NAME=usb"] true false).2.1 = true ↔
      usbPsy.mContaminantPresence ≠ (decide ("1".toList.headD ' ' = '1'))) ∧
    (handle_psy_uevent fsPsy usbPsy ["POWER_SUPPLY_NAME=usb"] true false).1.mContaminantPresence =
      (decide ("1".toList.headD ' ' = '1')) :=
  C8_contaminant_debounce fsPsy usbPsy ["POWER_SUPPLY_NAME=usb"] false "1"
    (by decide) (by decide) rfl

end UsbHal
